import Mathlib

/-
Verification of the toyz80 CPU core (src/z80/z80.go): a shallow embedding of
the register file, flag helpers, the instruction dispatcher Step, and the
disassembler component extractor, together with theorems settling the frozen
claims about them.  Go uint16 values are Nats kept below 65536 (wrapping
arithmetic written with explicit % 65536), the uint64 cycle counter wraps at
2^64, and bytes are Nats below 256.  The opcode descriptor struct and the four
descriptor tables live in a repository file outside src/, so they are modelled
from the spec and the dispatcher is parameterized by the tables.
-/

set_option maxHeartbeats 2000000
set_option maxRecDepth 40000

namespace toyz80

/-- CPU dialect selector, from CPUMode in z80.go (ModeZ80 = 0, Mode8080 = 1 by iota). -/
inductive CPUMode
  | ModeZ80
  | Mode8080
deriving DecidableEq

/-- Index of a dialect into the per-dialect name arrays, as the Go code indexes arrays by the CPUMode value. -/
def modeIdx : CPUMode → Nat
  | .ModeZ80 => 0
  | .Mode8080 => 1

/-- Flag bit C (1 << 0) from z80.go. -/
def carry : Nat := 1

/-- Flag bit N (1 << 1) from z80.go. -/
def addsub : Nat := 2

/-- Flag bit P/V (1 << 2) from z80.go. -/
def parity : Nat := 4

/-- Unused flag bit X (1 << 3) from z80.go. -/
def unused : Nat := 8

/-- Flag bit H (1 << 4) from z80.go. -/
def halfCarry : Nat := 16

/-- Unused flag bit X (1 << 5) from z80.go. -/
def unused2 : Nat := 32

/-- Flag bit Z (1 << 6) from z80.go. -/
def zero : Nat := 64

/-- Flag bit S (1 << 7) from z80.go. -/
def sign : Nat := 128

/-- External bus (spec section 6): byte-addressable 16-bit memory space plus an
independent 8-bit-addressed IO space.  Stored values are bytes. -/
structure Bus where
  mem : Nat → Nat
  ioports : Nat → Nat

/-- Read one byte from a 16-bit memory address. -/
def Bus.Read (b : Bus) (addr : Nat) : Nat := b.mem (addr % 65536) % 256

/-- Write one byte to a 16-bit memory address. -/
def Bus.Write (b : Bus) (addr v : Nat) : Bus :=
  { b with mem := fun a => if a = addr % 65536 then v % 256 else b.mem a }

/-- Read one byte from an 8-bit IO port. -/
def Bus.IORead (b : Bus) (port : Nat) : Nat := b.ioports (port % 256) % 256

/-- Write one byte to an 8-bit IO port. -/
def Bus.IOWrite (b : Bus) (port v : Nat) : Bus :=
  { b with ioports := fun a => if a = port % 256 then v % 256 else b.ioports a }

/-- The z80 struct from z80.go: eight 16-bit register slots (af, bc, de, hl,
ix, iy, pc, sp; each kept below 65536), the uint64 cycle counter, and the
dialect selector.  The bus reference is passed alongside the state. -/
structure Z80 where
  af : Nat
  bc : Nat
  de : Nat
  hl : Nat
  ix : Nat
  iy : Nat
  pc : Nat
  sp : Nat
  totalCycles : Nat
  mode : CPUMode

/-- Modelled from the spec: the operand addressing-mode kinds of the opcode
descriptor (spec section 3 lists none, register, register-indirect, immediate,
immediate-extended, indirect, extended/absolute, relative-displacement,
condition-code).  The Go constants live in a repository file outside src/;
the zero value is the "none" kind. -/
inductive OperandKind
  | noOperand
  | register
  | registerIndirect
  | immediate
  | immediateExtended
  | indirect
  | extended
  | displacement
  | condition
deriving DecidableEq

/-- Modelled from the spec: the immutable opcode descriptor record (spec
section 3): mnemonic text per dialect, destination/source operand kinds,
destination/source register-name text per dialect, total instruction byte
length (a Go uint16, used by genericPostInstruction and the call return
address), nominal cycle count (a Go uint64), and the multi-byte marker that is
true only for the three prefix bytes.  The Go struct lives in a repository
file outside src/. -/
structure Opcode where
  mnemonic : List String
  dst : OperandKind
  src : OperandKind
  dstR : List String
  srcR : List String
  noBytes : Nat
  noCycles : Nat
  multiByte : Bool
deriving DecidableEq

/-- Modelled from the spec: the zero-valued descriptor, which is the table
entry of any opcode that is absent from a Go descriptor array (empty mnemonic,
"none" operand kinds, zero length and cycle count). -/
def Opcode.empty : Opcode := ⟨[], .noOperand, .noOperand, [], [], 0, 0, false⟩

/-- Modelled from the spec: the four static read-only descriptor tables (base
page and the 0xdd, 0xed and 0xfd prefix pages, spec section 2).  Their
contents live in a repository file outside src/, so the dispatcher and
disassembler take them as a parameter. -/
structure Tables where
  base : Nat → Opcode
  dd : Nat → Opcode
  ed : Nat → Opcode
  fd : Nat → Opcode

/-- Terminal signals of Step: ErrHalt, the bare ErrInvalidInstruction
sentinel, and the formatted invalid-instruction error that carries the
offending opcode byte and its address. -/
inductive Err
  | halt
  | invalid
  | invalidAt (opc : Nat) (addr : Nat)
deriving DecidableEq

/-- Go a &^ m on uint16 operands: clear in a the bits set in m. -/
def andNot16 (a m : Nat) : Nat := a &&& (65535 ^^^ m)

/-- evalZ from z80.go: set the zero flag iff the result byte is 0x00. -/
def Z80.evalZ (z : Z80) (src : Nat) : Z80 :=
  if src = 0 then { z with af := z.af ||| zero } else { z with af := andNot16 z.af zero }

/-- evalS from z80.go: set the sign flag iff bit 7 of the result byte is set. -/
def Z80.evalS (z : Z80) (src : Nat) : Z80 :=
  if src &&& 128 = 128 then { z with af := z.af ||| sign } else { z with af := andNot16 z.af sign }

/-- evalH from z80.go: set the half-carry flag iff the low-nibble addition of
src and increment carries out of bit 3. -/
def Z80.evalH (z : Z80) (src increment : Nat) : Z80 :=
  if ((src &&& 15) + (increment &&& 15)) &&& 16 ≠ 0 then { z with af := z.af ||| halfCarry }
  else { z with af := andNot16 z.af halfCarry }

/-- Selector standing for a Go pointer to one of the 16-bit register fields of the z80 struct. -/
inductive Reg16
  | af
  | bc
  | de
  | hl
  | ix
  | iy
  | pc
  | sp
deriving DecidableEq

/-- Dereference a register selector. -/
def Z80.get (z : Z80) : Reg16 → Nat
  | .af => z.af
  | .bc => z.bc
  | .de => z.de
  | .hl => z.hl
  | .ix => z.ix
  | .iy => z.iy
  | .pc => z.pc
  | .sp => z.sp

/-- Store through a register selector. -/
def Z80.set (z : Z80) (r : Reg16) (v : Nat) : Z80 :=
  match r with
  | .af => { z with af := v }
  | .bc => { z with bc := v }
  | .de => { z with de := v }
  | .hl => { z with hl := v }
  | .ix => { z with ix := v }
  | .iy => { z with iy := v }
  | .pc => { z with pc := v }
  | .sp => { z with sp := v }

/-- inc8L from z80.go: add 1 to the low byte of the selected register pair and
set the flags (sign/zero from the result, overflow iff the old byte was 0x7f,
half-carry from the nibble sum, add/subtract cleared, carry untouched). -/
def Z80.inc8L (z : Z80) (r : Reg16) : Z80 :=
  let oldB := (z.get r) &&& 255
  let newB := (oldB + 1) % 256
  let z1 := z.set r (newB ||| ((z.get r) &&& 65280))
  let z2 := z1.evalS newB
  let z3 := z2.evalZ newB
  let z4 := if oldB = 127 then { z3 with af := z3.af ||| parity }
            else { z3 with af := andNot16 z3.af parity }
  let z5 := z4.evalH oldB 1
  { z5 with af := andNot16 z5.af addsub }

/-- inc8H from z80.go: add 1 to the high byte of the selected register pair
and set the flags exactly as inc8L does. -/
def Z80.inc8H (z : Z80) (r : Reg16) : Z80 :=
  let oldB := ((z.get r) >>> 8) % 256
  let newB := (oldB + 1) % 256
  let z1 := z.set r ((newB <<< 8) ||| ((z.get r) &&& 255))
  let z2 := z1.evalS newB
  let z3 := z2.evalZ newB
  let z4 := if oldB = 127 then { z3 with af := z3.af ||| parity }
            else { z3 with af := andNot16 z3.af parity }
  let z5 := z4.evalH oldB 1
  { z5 with af := andNot16 z5.af addsub }

/-- genericPostInstruction from z80.go: add the descriptor's cycle count to
the running uint64 total and advance the uint16 PC by its byte length. -/
def genericPostInstruction (o : Opcode) (z : Z80) : Z80 :=
  { z with totalCycles := (z.totalCycles + o.noCycles) % 18446744073709551616,
           pc := (z.pc + o.noBytes) % 65536 }

/-- Go uint16(int8(x)) for a byte x: sign-extend x into 16 bits. -/
def sext8 (x : Nat) : Nat := if x < 128 then x else 65280 + x

/-- Outcome of the big opcode switch inside Step: an early return (carrying
the possibly updated state, bus and error), or fall-through to
genericPostInstruction with the possibly reassigned descriptor. -/
inductive SwitchRes
  | early (z : Z80) (b : Bus) (e : Option Err)
  | thru (z : Z80) (b : Bus) (o : Opcode)

/-- The switch statement of Step from z80.go, one branch per opcode byte, in
source order made explicit as a decision chain.  Early-return branches update
PC and the cycle counter themselves; all other branches fall through to
genericPostInstruction with the descriptor (reassigned to the sub-table entry
for the three prefix bytes). -/
def stepSwitch (t : Tables) (z : Z80) (b : Bus) : SwitchRes :=
  let opc := b.Read z.pc
  let oS := t.base opc
  if opc = 0x00 then -- nop
    .thru z b oS
  else if opc = 0x01 then -- ld bc,nn
    .thru { z with bc := b.Read (z.pc+1) ||| (b.Read (z.pc+2) <<< 8) } b oS
  else if opc = 0x02 then -- ld (bc),a
    .thru z (b.Write z.bc ((z.af >>> 8) % 256)) oS
  else if opc = 0x03 then -- inc bc
    .thru { z with bc := (z.bc + 1) % 65536 } b oS
  else if opc = 0x04 then -- inc b
    .thru (z.inc8H .bc) b oS
  else if opc = 0x06 then -- ld b,n
    .thru { z with bc := (b.Read (z.pc+1) <<< 8) ||| (z.bc &&& 255) } b oS
  else if opc = 0x0a then -- ld a,(bc)
    .thru { z with af := (b.Read z.bc <<< 8) ||| (z.af &&& 255) } b oS
  else if opc = 0x0b then -- dec bc
    .thru { z with bc := (z.bc + 65535) % 65536 } b oS
  else if opc = 0x0e then -- ld c,n
    .thru { z with bc := b.Read (z.pc+1) ||| (z.bc &&& 65280) } b oS
  else if opc = 0x11 then -- ld de,nn
    .thru { z with de := b.Read (z.pc+1) ||| (b.Read (z.pc+2) <<< 8) } b oS
  else if opc = 0x12 then -- ld (de),a
    .thru z (b.Write z.de ((z.af >>> 8) % 256)) oS
  else if opc = 0x13 then -- inc de
    .thru { z with de := (z.de + 1) % 65536 } b oS
  else if opc = 0x16 then -- ld d,n
    .thru { z with de := (b.Read (z.pc+1) <<< 8) ||| (z.de &&& 255) } b oS
  else if opc = 0x18 then -- jr d
    .early { z with pc := (z.pc + 2 + sext8 (b.Read (z.pc+1))) % 65536,
                    totalCycles := (z.totalCycles + oS.noCycles) % 18446744073709551616 } b none
  else if opc = 0x1a then -- ld a,(de)
    .thru { z with af := (b.Read z.de <<< 8) ||| (z.af &&& 255) } b oS
  else if opc = 0x1b then -- dec de
    .thru { z with de := (z.de + 65535) % 65536 } b oS
  else if opc = 0x1e then -- ld e,n
    .thru { z with de := b.Read (z.pc+1) ||| (z.de &&& 65280) } b oS
  else if opc = 0x21 then -- ld hl,nn
    .thru { z with hl := b.Read (z.pc+1) ||| (b.Read (z.pc+2) <<< 8) } b oS
  else if opc = 0x23 then -- inc hl
    .thru { z with hl := (z.hl + 1) % 65536 } b oS
  else if opc = 0x26 then -- ld h,n
    .thru { z with hl := (b.Read (z.pc+1) <<< 8) ||| (z.hl &&& 255) } b oS
  else if opc = 0x28 then -- jr z,d
    if z.af &&& zero = zero then
      .early { z with pc := (z.pc + 2 + sext8 (b.Read (z.pc+1))) % 65536,
                      totalCycles := (z.totalCycles + oS.noCycles) % 18446744073709551616 } b none
    else
      .thru { z with totalCycles := (z.totalCycles + 7) % 18446744073709551616 } b oS
  else if opc = 0x2b then -- dec hl
    .thru { z with hl := (z.hl + 65535) % 65536 } b oS
  else if opc = 0x2e then -- ld l,n
    .thru { z with hl := b.Read (z.pc+1) ||| (z.hl &&& 65280) } b oS
  else if opc = 0x2f then -- cpl
    .thru { z with af := (((z.af &&& 255) ||| ((z.af ^^^ 65535) &&& 65280)) ||| halfCarry) ||| addsub } b oS
  else if opc = 0x31 then -- ld sp,nn
    .thru { z with sp := b.Read (z.pc+1) ||| (b.Read (z.pc+2) <<< 8) } b oS
  else if opc = 0x32 then -- ld (nn),a
    .thru z (b.Write (b.Read (z.pc+1) ||| (b.Read (z.pc+2) <<< 8)) ((z.af >>> 8) % 256)) oS
  else if opc = 0x33 then -- inc sp
    .thru { z with sp := (z.sp + 1) % 65536 } b oS
  else if opc = 0x36 then -- ld (hl),n
    .thru z (b.Write z.hl (b.Read (z.pc+1))) oS
  else if opc = 0x37 then -- scf
    .thru { z with af := (andNot16 (andNot16 z.af halfCarry) addsub) ||| carry } b oS
  else if opc = 0x3f then -- ccf
    let a1 := if z.af &&& carry = carry then andNot16 (z.af ||| halfCarry) carry
              else (andNot16 z.af halfCarry) ||| carry
    .thru { z with af := andNot16 a1 addsub } b oS
  else if opc = 0x3a then -- ld a,(nn)
    .thru { z with af := b.Read (b.Read (z.pc+1) ||| (b.Read (z.pc+2) <<< 8)) <<< 8 } b oS
  else if opc = 0x3b then -- dec sp
    .thru { z with sp := (z.sp + 65535) % 65536 } b oS
  else if opc = 0x3c then -- inc a
    .thru (z.inc8L .af) b oS
  else if opc = 0x3e then -- ld a,n
    .thru { z with af := (b.Read (z.pc+1) <<< 8) ||| (z.af &&& 255) } b oS
  else if opc = 0x40 then -- ld b,b
    .thru z b oS
  else if opc = 0x41 then -- ld b,c
    .thru { z with bc := (z.bc &&& 255) ||| ((z.bc <<< 8) % 65536) } b oS
  else if opc = 0x42 then -- ld b,d
    .thru { z with bc := (z.bc &&& 255) ||| (z.de &&& 65280) } b oS
  else if opc = 0x43 then -- ld b,e
    .thru { z with bc := (z.bc &&& 255) ||| ((z.de <<< 8) % 65536) } b oS
  else if opc = 0x44 then -- ld b,h
    .thru { z with bc := (z.bc &&& 255) ||| (z.hl &&& 65280) } b oS
  else if opc = 0x45 then -- ld b,l
    .thru { z with bc := (z.bc &&& 255) ||| ((z.hl <<< 8) % 65536) } b oS
  else if opc = 0x46 then -- ld b,(hl)
    .thru { z with bc := (b.Read z.hl <<< 8) ||| (z.bc &&& 255) } b oS
  else if opc = 0x47 then -- ld b,a
    .thru { z with bc := (z.af &&& 65280) ||| (z.bc &&& 255) } b oS
  else if opc = 0x48 then -- ld c,b
    .thru { z with bc := (z.bc >>> 8) ||| (z.bc &&& 65280) } b oS
  else if opc = 0x49 then -- ld c,c
    .thru z b oS
  else if opc = 0x4a then -- ld c,d
    .thru { z with bc := (z.bc &&& 65280) ||| (z.de >>> 8) } b oS
  else if opc = 0x4b then -- ld c,e
    .thru { z with bc := (z.bc &&& 65280) ||| (z.de &&& 255) } b oS
  else if opc = 0x4c then -- ld c,h
    .thru { z with bc := (z.bc &&& 65280) ||| (z.hl >>> 8) } b oS
  else if opc = 0x4d then -- ld c,l
    .thru { z with bc := (z.bc &&& 65280) ||| (z.hl &&& 255) } b oS
  else if opc = 0x4e then -- ld c,(hl)
    .thru { z with bc := b.Read z.hl ||| (z.bc &&& 65280) } b oS
  else if opc = 0x4f then -- ld c,a
    .thru { z with bc := (z.bc &&& 65280) ||| (z.af >>> 8) } b oS
  else if opc = 0x50 then -- ld d,b
    .thru { z with de := (z.bc &&& 65280) ||| (z.de &&& 255) } b oS
  else if opc = 0x51 then -- ld d,c
    .thru { z with de := ((z.bc <<< 8) % 65536) ||| (z.de &&& 255) } b oS
  else if opc = 0x52 then -- ld d,d
    .thru z b oS
  else if opc = 0x53 then -- ld d,e
    .thru { z with de := (z.de &&& 255) ||| ((z.de <<< 8) % 65536) } b oS
  else if opc = 0x54 then -- ld d,h
    .thru { z with de := (z.hl &&& 65280) ||| (z.de &&& 255) } b oS
  else if opc = 0x55 then -- ld d,l
    .thru { z with de := ((z.hl <<< 8) % 65536) ||| (z.de &&& 255) } b oS
  else if opc = 0x56 then -- ld d,(hl)
    .thru { z with de := (b.Read z.hl <<< 8) ||| (z.de &&& 255) } b oS
  else if opc = 0x57 then -- ld d,a
    .thru { z with de := (z.af &&& 65280) ||| (z.de &&& 255) } b oS
  else if opc = 0x58 then -- ld e,b
    .thru { z with de := (z.bc >>> 8) ||| (z.de &&& 65280) } b oS
  else if opc = 0x59 then -- ld e,c
    .thru { z with de := (z.bc &&& 255) ||| (z.de &&& 65280) } b oS
  else if opc = 0x5a then -- ld e,d
    .thru { z with de := (z.de >>> 8) ||| (z.de &&& 65280) } b oS
  else if opc = 0x5b then -- ld e,e
    .thru z b oS
  else if opc = 0x5c then -- ld e,h
    .thru { z with de := (z.hl >>> 8) ||| (z.de &&& 65280) } b oS
  else if opc = 0x5d then -- ld e,l
    .thru { z with de := (z.hl &&& 255) ||| (z.de &&& 65280) } b oS
  else if opc = 0x5e then -- ld e,(hl)
    .thru { z with de := b.Read z.hl ||| (z.de &&& 65280) } b oS
  else if opc = 0x5f then -- ld e,a
    .thru { z with de := (z.af >>> 8) ||| (z.de &&& 65280) } b oS
  else if opc = 0x60 then -- ld h,b
    .thru { z with hl := (z.hl &&& 255) ||| (z.bc &&& 65280) } b oS
  else if opc = 0x61 then -- ld h,c
    .thru { z with hl := (z.hl &&& 255) ||| ((z.bc <<< 8) % 65536) } b oS
  else if opc = 0x62 then -- ld h,d
    .thru { z with hl := (z.hl &&& 255) ||| (z.de &&& 65280) } b oS
  else if opc = 0x63 then -- ld h,e
    .thru { z with hl := (z.hl &&& 255) ||| ((z.de <<< 8) % 65536) } b oS
  else if opc = 0x64 then -- ld h,h
    .thru z b oS
  else if opc = 0x65 then -- ld h,l
    .thru { z with hl := (z.hl &&& 255) ||| ((z.hl <<< 8) % 65536) } b oS
  else if opc = 0x66 then -- ld h,(hl)
    .thru { z with hl := (b.Read z.hl <<< 8) ||| (z.hl &&& 255) } b oS
  else if opc = 0x67 then -- ld h,a
    .thru { z with hl := (z.hl &&& 255) ||| (z.af &&& 65280) } b oS
  else if opc = 0x68 then -- ld l,b
    .thru { z with hl := (z.hl &&& 65280) ||| (z.bc >>> 8) } b oS
  else if opc = 0x69 then -- ld l,c
    .thru { z with hl := (z.hl &&& 65280) ||| (z.bc &&& 255) } b oS
  else if opc = 0x6a then -- ld l,d
    .thru { z with hl := (z.hl &&& 65280) ||| (z.de >>> 8) } b oS
  else if opc = 0x6b then -- ld l,e
    .thru { z with hl := (z.hl &&& 65280) ||| (z.de &&& 255) } b oS
  else if opc = 0x6c then -- ld l,h
    .thru { z with hl := (z.hl >>> 8) ||| (z.hl &&& 65280) } b oS
  else if opc = 0x6d then -- ld l,l
    .thru z b oS
  else if opc = 0x6e then -- ld l,(hl)
    .thru { z with hl := b.Read z.hl ||| (z.hl &&& 65280) } b oS
  else if opc = 0x6f then -- ld l,a
    .thru { z with hl := (z.hl &&& 65280) ||| (z.af >>> 8) } b oS
  else if opc = 0x70 then -- ld (hl),b
    .thru z (b.Write z.hl ((z.bc >>> 8) % 256)) oS
  else if opc = 0x71 then -- ld (hl),c
    .thru z (b.Write z.hl (z.bc % 256)) oS
  else if opc = 0x72 then -- ld (hl),d
    .thru z (b.Write z.hl ((z.de >>> 8) % 256)) oS
  else if opc = 0x73 then -- ld (hl),e
    .thru z (b.Write z.hl (z.de % 256)) oS
  else if opc = 0x74 then -- ld (hl),h
    .thru z (b.Write z.hl ((z.hl >>> 8) % 256)) oS
  else if opc = 0x75 then -- ld (hl),l
    .thru z (b.Write z.hl (z.hl % 256)) oS
  else if opc = 0x76 then -- halt
    .early { z with totalCycles := (z.totalCycles + oS.noCycles) % 18446744073709551616 } b
      (some .halt)
  else if opc = 0x77 then -- ld (hl),a
    .thru z (b.Write z.hl ((z.af >>> 8) % 256)) oS
  else if opc = 0x78 then -- ld a,b
    .thru { z with af := (z.af &&& 255) ||| (z.bc &&& 65280) } b oS
  else if opc = 0x79 then -- ld a,c
    .thru { z with af := (z.af &&& 255) ||| ((z.bc <<< 8) % 65536) } b oS
  else if opc = 0x7a then -- ld a,d
    .thru { z with af := (z.af &&& 255) ||| (z.de &&& 65280) } b oS
  else if opc = 0x7b then -- ld a,e
    .thru { z with af := (z.af &&& 255) ||| ((z.de <<< 8) % 65536) } b oS
  else if opc = 0x7c then -- ld a,h
    .thru { z with af := (z.af &&& 255) ||| (z.hl &&& 65280) } b oS
  else if opc = 0x7d then -- ld a,l
    .thru { z with af := (z.af &&& 255) ||| ((z.hl <<< 8) % 65536) } b oS
  else if opc = 0x7e then -- ld a,(hl)
    .thru { z with af := (b.Read z.hl <<< 8) ||| (z.af &&& 255) } b oS
  else if opc = 0x7f then -- ld a,a
    .thru z b oS
  else if opc = 0xa7 then -- and a
    let a := (z.af >>> 8) % 256
    let z2 := (z.evalS a).evalZ a
    .thru { z2 with af := andNot16 (andNot16 (z2.af ||| halfCarry) addsub) carry } b oS
  else if opc = 0xbf then -- cp a
    let a := (z.af >>> 8) % 256
    let z2 := (z.evalS a).evalZ a
    .thru { z2 with af := z2.af ||| addsub } b oS
  else if opc = 0xc1 then -- pop bc
    let bc1 := b.Read z.sp ||| (z.bc &&& 65280)
    let sp1 := (z.sp + 1) % 65536
    let bc2 := (b.Read sp1 <<< 8) ||| (bc1 &&& 255)
    .thru { z with bc := bc2, sp := (sp1 + 1) % 65536 } b oS
  else if opc = 0xc2 then -- jp nz,nn
    if z.af &&& zero = 0 then
      .early { z with pc := b.Read (z.pc+1) ||| (b.Read (z.pc+2) <<< 8),
                      totalCycles := (z.totalCycles + oS.noCycles) % 18446744073709551616 } b none
    else
      .thru z b oS
  else if opc = 0xc3 then -- jp nn
    .early { z with pc := b.Read (z.pc+1) ||| (b.Read (z.pc+2) <<< 8),
                    totalCycles := (z.totalCycles + oS.noCycles) % 18446744073709551616 } b none
  else if opc = 0xc5 then -- push bc
    let sp1 := (z.sp + 65535) % 65536
    let b1 := b.Write sp1 ((z.bc >>> 8) % 256)
    let sp2 := (sp1 + 65535) % 65536
    let b2 := b1.Write sp2 (z.bc % 256)
    .thru { z with sp := sp2 } b2 oS
  else if opc = 0xc8 then -- ret z
    if z.af &&& zero = zero then
      let lo := b.Read z.sp
      let sp1 := (z.sp + 1) % 65536
      let pcv := (b.Read sp1 <<< 8) ||| (lo &&& 255)
      .early { z with pc := pcv, sp := (sp1 + 1) % 65536,
                      totalCycles := (z.totalCycles + 11) % 18446744073709551616 } b none
    else
      .thru z b oS
  else if opc = 0xc9 then -- ret
    let lo := b.Read z.sp
    let sp1 := (z.sp + 1) % 65536
    let pcv := (b.Read sp1 <<< 8) ||| (lo &&& 255)
    .early { z with pc := pcv, sp := (sp1 + 1) % 65536,
                    totalCycles := (z.totalCycles + oS.noCycles) % 18446744073709551616 } b none
  else if opc = 0xca then -- jp z,nn
    if z.af &&& zero = zero then
      .early { z with pc := b.Read (z.pc+1) ||| (b.Read (z.pc+2) <<< 8),
                      totalCycles := (z.totalCycles + oS.noCycles) % 18446744073709551616 } b none
    else
      .thru z b oS
  else if opc = 0xcd then -- call nn
    let retPC := (z.pc + oS.noBytes) % 65536
    let sp1 := (z.sp + 65535) % 65536
    let b1 := b.Write sp1 ((retPC >>> 8) % 256)
    let sp2 := (sp1 + 65535) % 65536
    let b2 := b1.Write sp2 (retPC % 256)
    .early { z with sp := sp2,
                    pc := b2.Read (z.pc+1) ||| (b2.Read (z.pc+2) <<< 8),
                    totalCycles := (z.totalCycles + oS.noCycles) % 18446744073709551616 } b2 none
  else if opc = 0xd1 then -- pop de
    let de1 := b.Read z.sp ||| (z.de &&& 65280)
    let sp1 := (z.sp + 1) % 65536
    let de2 := (b.Read sp1 <<< 8) ||| (de1 &&& 255)
    .thru { z with de := de2, sp := (sp1 + 1) % 65536 } b oS
  else if opc = 0xd2 then -- jp nc,nn
    if z.af &&& carry = 0 then
      .early { z with pc := b.Read (z.pc+1) ||| (b.Read (z.pc+2) <<< 8),
                      totalCycles := (z.totalCycles + oS.noCycles) % 18446744073709551616 } b none
    else
      .thru z b oS
  else if opc = 0xd3 then -- out (n),a
    .thru z (b.IOWrite (b.Read (z.pc+1)) ((z.af >>> 8) % 256)) oS
  else if opc = 0xd5 then -- push de
    let sp1 := (z.sp + 65535) % 65536
    let b1 := b.Write sp1 ((z.de >>> 8) % 256)
    let sp2 := (sp1 + 65535) % 65536
    let b2 := b1.Write sp2 (z.de % 256)
    .thru { z with sp := sp2 } b2 oS
  else if opc = 0xda then -- jp c,nn
    if z.af &&& carry = carry then
      .early { z with pc := b.Read (z.pc+1) ||| (b.Read (z.pc+2) <<< 8),
                      totalCycles := (z.totalCycles + oS.noCycles) % 18446744073709551616 } b none
    else
      .thru z b oS
  else if opc = 0xdb then -- in a,(n)
    .thru { z with af := (b.IORead (b.Read (z.pc+1)) <<< 8) ||| (z.af &&& 255) } b oS
  else if opc = 0xdd then -- 0xdd prefix page (ix), z80 only
    let byte2 := b.Read (z.pc + 1)
    let oDD := t.dd byte2
    if byte2 = 0x23 then -- inc ix
      .thru { z with ix := (z.ix + 1) % 65536 } b oDD
    else if byte2 = 0x2b then -- dec ix
      .thru { z with ix := (z.ix + 65535) % 65536 } b oDD
    else if byte2 = 0xe1 then -- pop ix
      let ix1 := b.Read z.sp ||| (z.ix &&& 65280)
      let sp1 := (z.sp + 1) % 65536
      let ix2 := (b.Read sp1 <<< 8) ||| (ix1 &&& 255)
      .thru { z with ix := ix2, sp := (sp1 + 1) % 65536 } b oDD
    else if byte2 = 0xe5 then -- push ix
      let sp1 := (z.sp + 65535) % 65536
      let b1 := b.Write sp1 ((z.ix >>> 8) % 256)
      let sp2 := (sp1 + 65535) % 65536
      let b2 := b1.Write sp2 (z.ix % 256)
      .thru { z with sp := sp2 } b2 oDD
    else
      .early z b (some .invalid)
  else if opc = 0xe1 then -- pop hl
    let hl1 := b.Read z.sp ||| (z.hl &&& 65280)
    let sp1 := (z.sp + 1) % 65536
    let hl2 := (b.Read sp1 <<< 8) ||| (hl1 &&& 255)
    .thru { z with hl := hl2, sp := (sp1 + 1) % 65536 } b oS
  else if opc = 0xe2 then -- jp po,nn
    if z.af &&& parity = 0 then
      .early { z with pc := b.Read (z.pc+1) ||| (b.Read (z.pc+2) <<< 8),
                      totalCycles := (z.totalCycles + oS.noCycles) % 18446744073709551616 } b none
    else
      .thru z b oS
  else if opc = 0xe5 then -- push hl
    let sp1 := (z.sp + 65535) % 65536
    let b1 := b.Write sp1 ((z.hl >>> 8) % 256)
    let sp2 := (sp1 + 65535) % 65536
    let b2 := b1.Write sp2 (z.hl % 256)
    .thru { z with sp := sp2 } b2 oS
  else if opc = 0xe6 then -- and n
    let a := b.Read (z.pc+1) &&& ((z.af >>> 8) % 256)
    let z1 := { z with af := (a <<< 8) ||| (z.af &&& 255) }
    let z2 := (z1.evalS a).evalZ a
    .thru { z2 with af := andNot16 (andNot16 (z2.af ||| halfCarry) addsub) carry } b oS
  else if opc = 0xe9 then -- jp (hl)
    .early { z with pc := z.hl,
                    totalCycles := (z.totalCycles + oS.noCycles) % 18446744073709551616 } b none
  else if opc = 0xea then -- jp pe,nn
    if z.af &&& parity = parity then
      .early { z with pc := b.Read (z.pc+1) ||| (b.Read (z.pc+2) <<< 8),
                      totalCycles := (z.totalCycles + oS.noCycles) % 18446744073709551616 } b none
    else
      .thru z b oS
  else if opc = 0xeb then -- ex de,hl
    .thru { z with de := z.hl, hl := z.de } b oS
  else if opc = 0xed then -- 0xed prefix page, z80 only
    let byte2 := b.Read (z.pc + 1)
    let oED := t.ed byte2
    if byte2 = 0x44 then -- neg
      let oldA := ((z.af &&& 65280) >>> 8) % 256
      let newA := (256 - oldA) % 256
      let z1 := { z with af := newA <<< 8 }
      let z2 := (z1.evalS newA).evalZ newA
      let z3 := if oldA = 128 then { z2 with af := z2.af ||| parity }
                else { z2 with af := andNot16 z2.af parity }
      let z4 := { z3 with af := z3.af ||| addsub }
      let z5 := if oldA ≠ 0 then { z4 with af := z4.af ||| carry }
                else { z4 with af := andNot16 z4.af carry }
      .thru z5 b oED
    else
      .early z b (some .invalid)
  else if opc = 0xf1 then -- pop af
    let af1 := b.Read z.sp ||| (z.af &&& 65280)
    let sp1 := (z.sp + 1) % 65536
    let af2 := (b.Read sp1 <<< 8) ||| (af1 &&& 255)
    .thru { z with af := af2, sp := (sp1 + 1) % 65536 } b oS
  else if opc = 0xf2 then -- jp p,nn
    if z.af &&& sign = 0 then
      .early { z with pc := b.Read (z.pc+1) ||| (b.Read (z.pc+2) <<< 8),
                      totalCycles := (z.totalCycles + oS.noCycles) % 18446744073709551616 } b none
    else
      .thru z b oS
  else if opc = 0xf5 then -- push af
    let sp1 := (z.sp + 65535) % 65536
    let b1 := b.Write sp1 ((z.af >>> 8) % 256)
    let sp2 := (sp1 + 65535) % 65536
    let b2 := b1.Write sp2 (z.af % 256)
    .thru { z with sp := sp2 } b2 oS
  else if opc = 0xfa then -- jp m,nn
    if z.af &&& sign = sign then
      .early { z with pc := b.Read (z.pc+1) ||| (b.Read (z.pc+2) <<< 8),
                      totalCycles := (z.totalCycles + oS.noCycles) % 18446744073709551616 } b none
    else
      .thru z b oS
  else if opc = 0xfd then -- 0xfd prefix page (iy), z80 only
    let byte2 := b.Read (z.pc + 1)
    let oFD := t.fd byte2
    if byte2 = 0x23 then -- inc iy
      .thru { z with iy := (z.iy + 1) % 65536 } b oFD
    else if byte2 = 0x2b then -- dec iy
      .thru { z with iy := (z.iy + 65535) % 65536 } b oFD
    else if byte2 = 0xe1 then -- pop iy
      let iy1 := b.Read z.sp ||| (z.iy &&& 65280)
      let sp1 := (z.sp + 1) % 65536
      let iy2 := (b.Read sp1 <<< 8) ||| (iy1 &&& 255)
      .thru { z with iy := iy2, sp := (sp1 + 1) % 65536 } b oFD
    else if byte2 = 0xe5 then -- push iy
      let sp1 := (z.sp + 65535) % 65536
      let b1 := b.Write sp1 ((z.iy >>> 8) % 256)
      let sp2 := (sp1 + 65535) % 65536
      let b2 := b1.Write sp2 (z.iy % 256)
      .thru { z with sp := sp2 } b2 oFD
    else
      .early z b (some .invalid)
  else
    .early z b (some (.invalidAt opc z.pc))

/-- Step from z80.go: execute the instruction pointed at by PC against the
given descriptor tables and bus, returning the new state, the new bus, and
the terminal signal (none for normal completion).  Every branch that does not
return early goes through genericPostInstruction with its descriptor. -/
def Step (t : Tables) (z : Z80) (b : Bus) : Z80 × Bus × Option Err :=
  match stepSwitch t z b with
  | .early z' b' e => (z', b', e)
  | .thru z' b' o => (genericPostInstruction o z', b', none)

/-- Hexadecimal digit character, as produced by Go %x formatting. -/
def hexDigit (n : Nat) : Char := if n < 10 then Char.ofNat (48 + n) else Char.ofNat (87 + n)

/-- Sprintf "$%02x" from z80.go. -/
def hex2 (n : Nat) : String := String.mk [Char.ofNat 36, hexDigit (n / 16 % 16), hexDigit (n % 16)]

/-- Sprintf "$%04x" from z80.go. -/
def hex4 (n : Nat) : String :=
  String.mk [Char.ofNat 36, hexDigit (n / 4096 % 16), hexDigit (n / 256 % 16),
             hexDigit (n / 16 % 16), hexDigit (n % 16)]

/-- DisassembleComponents from z80.go: resolve the descriptor at the given
address (re-resolving through a prefix page when the lead byte is marked
multi-byte), format the destination and source operand text by addressing-mode
kind, and report the byte count; an entry with an empty mnemonic yields
"INVALID" with a byte count of one. -/
def DisassembleComponents (t : Tables) (z : Z80) (b : Bus) (address : Nat) :
    String × String × String × Nat :=
  let o0 := t.base (b.Read address)
  let o := if o0.multiByte then
      if b.Read address = 0xdd then t.dd (b.Read (address+1))
      else if b.Read address = 0xed then t.ed (b.Read (address+1))
      else if b.Read address = 0xfd then t.fd (b.Read (address+1))
      else o0
    else o0
  let dst : String :=
    match o.dst with
    | .condition => o.dstR.getD (modeIdx z.mode) ""
    | .displacement => hex4 ((address + 2 + sext8 (b.Read (address+1))) % 65536)
    | .registerIndirect =>
        if z.mode = CPUMode.Mode8080 then o.dstR.getD (modeIdx z.mode) ""
        else "(" ++ o.dstR.getD (modeIdx z.mode) "" ++ ")"
    | .immediate => hex2 (b.Read (address+1))
    | .immediateExtended => hex4 (b.Read (address+1) ||| (b.Read (address+2) <<< 8))
    | .register => o.dstR.getD (modeIdx z.mode) ""
    | .indirect => "(" ++ hex2 (b.Read (address+1)) ++ ")"
    | _ => ""
  let src : String :=
    match o.src with
    | .displacement => hex4 ((address + 2 + sext8 (b.Read (address+1))) % 65536)
    | .registerIndirect =>
        if z.mode = CPUMode.Mode8080 then o.srcR.getD (modeIdx z.mode) ""
        else "(" ++ o.srcR.getD (modeIdx z.mode) "" ++ ")"
    | .extended => "(" ++ hex4 (b.Read (address+1) ||| (b.Read (address+2) <<< 8)) ++ ")"
    | .immediate => hex2 (b.Read (address+1))
    | .immediateExtended => hex4 (b.Read (address+1) ||| (b.Read (address+2) <<< 8))
    | .register => o.srcR.getD (modeIdx z.mode) ""
    | .indirect => "(" ++ hex2 (b.Read (address+1)) ++ ")"
    | _ => ""
  if o.mnemonic.length = 0 then ("INVALID", dst, src, 1)
  else (o.mnemonic.getD (modeIdx z.mode) "", dst, src, o.noBytes)

/-- Base-page opcode bytes that have a case in the Step switch. -/
def baseHandled : List Nat :=
  [0x00, 0x01, 0x02, 0x03, 0x04, 0x06, 0x0a, 0x0b, 0x0e, 0x11, 0x12, 0x13, 0x16, 0x18, 0x1a,
   0x1b, 0x1e, 0x21, 0x23, 0x26, 0x28, 0x2b, 0x2e, 0x2f, 0x31, 0x32, 0x33, 0x36, 0x37, 0x3f,
   0x3a, 0x3b, 0x3c, 0x3e, 0x40, 0x41, 0x42, 0x43, 0x44, 0x45, 0x46, 0x47, 0x48, 0x49, 0x4a,
   0x4b, 0x4c, 0x4d, 0x4e, 0x4f, 0x50, 0x51, 0x52, 0x53, 0x54, 0x55, 0x56, 0x57, 0x58, 0x59,
   0x5a, 0x5b, 0x5c, 0x5d, 0x5e, 0x5f, 0x60, 0x61, 0x62, 0x63, 0x64, 0x65, 0x66, 0x67, 0x68,
   0x69, 0x6a, 0x6b, 0x6c, 0x6d, 0x6e, 0x6f, 0x70, 0x71, 0x72, 0x73, 0x74, 0x75, 0x76, 0x77,
   0x78, 0x79, 0x7a, 0x7b, 0x7c, 0x7d, 0x7e, 0x7f, 0xa7, 0xbf, 0xc1, 0xc2, 0xc3, 0xc5, 0xc8,
   0xc9, 0xca, 0xcd, 0xd1, 0xd2, 0xd3, 0xd5, 0xda, 0xdb, 0xdd, 0xe1, 0xe2, 0xe5, 0xe6, 0xe9,
   0xea, 0xeb, 0xed, 0xf1, 0xf2, 0xf5, 0xfa, 0xfd]

/-- Second bytes that have a case in the 0xdd prefix page of the Step switch. -/
def ddHandled : List Nat := [0x23, 0x2b, 0xe1, 0xe5]

/-- Second bytes that have a case in the 0xed prefix page of the Step switch. -/
def edHandled : List Nat := [0x44]

/-- Second bytes that have a case in the 0xfd prefix page of the Step switch. -/
def fdHandled : List Nat := [0x23, 0x2b, 0xe1, 0xe5]

/-- Base-page opcodes whose switch branch falls through to
genericPostInstruction unconditionally. -/
def baseFall : List Nat :=
  [0x00, 0x01, 0x02, 0x03, 0x04, 0x06, 0x0a, 0x0b, 0x0e, 0x11, 0x12, 0x13, 0x16, 0x1a, 0x1b,
   0x1e, 0x21, 0x23, 0x26, 0x2b, 0x2e, 0x2f, 0x31, 0x32, 0x33, 0x36, 0x37, 0x3f, 0x3a, 0x3b,
   0x3c, 0x3e, 0x40, 0x41, 0x42, 0x43, 0x44, 0x45, 0x46, 0x47, 0x48, 0x49, 0x4a, 0x4b, 0x4c,
   0x4d, 0x4e, 0x4f, 0x50, 0x51, 0x52, 0x53, 0x54, 0x55, 0x56, 0x57, 0x58, 0x59, 0x5a, 0x5b,
   0x5c, 0x5d, 0x5e, 0x5f, 0x60, 0x61, 0x62, 0x63, 0x64, 0x65, 0x66, 0x67, 0x68, 0x69, 0x6a,
   0x6b, 0x6c, 0x6d, 0x6e, 0x6f, 0x70, 0x71, 0x72, 0x73, 0x74, 0x75, 0x77, 0x78, 0x79, 0x7a,
   0x7b, 0x7c, 0x7d, 0x7e, 0x7f, 0xa7, 0xbf, 0xc1, 0xc5, 0xd1, 0xd3, 0xd5, 0xdb, 0xe1, 0xe5,
   0xe6, 0xeb, 0xf1, 0xf5]

/-- The flag condition of a conditional opcode fails at entry, so its branch
falls through to genericPostInstruction. -/
def condNotTaken (z : Z80) (opc : Nat) : Prop :=
  (opc = 0x28 ∧ z.af &&& zero ≠ zero) ∨
  (opc = 0xc2 ∧ z.af &&& zero ≠ 0) ∨
  (opc = 0xc8 ∧ z.af &&& zero ≠ zero) ∨
  (opc = 0xca ∧ z.af &&& zero ≠ zero) ∨
  (opc = 0xd2 ∧ z.af &&& carry ≠ 0) ∨
  (opc = 0xda ∧ z.af &&& carry ≠ carry) ∨
  (opc = 0xe2 ∧ z.af &&& parity ≠ 0) ∨
  (opc = 0xea ∧ z.af &&& parity ≠ parity) ∨
  (opc = 0xf2 ∧ z.af &&& sign ≠ 0) ∨
  (opc = 0xfa ∧ z.af &&& sign ≠ sign)

/-- A prefix-page case (lead byte plus handled second byte) whose branch falls
through to genericPostInstruction. -/
def prefixThru (opc byte2 : Nat) : Prop :=
  (opc = 0xdd ∧ (byte2 = 0x23 ∨ byte2 = 0x2b ∨ byte2 = 0xe1 ∨ byte2 = 0xe5)) ∨
  (opc = 0xed ∧ byte2 = 0x44) ∨
  (opc = 0xfd ∧ (byte2 = 0x23 ∨ byte2 = 0x2b ∨ byte2 = 0xe1 ∨ byte2 = 0xe5))

/-- The descriptor genericPostInstruction is invoked with: the sub-table entry
for the three prefix bytes (Step reassigns opcodeStruct there), the base-page
entry otherwise. -/
def effOpcode (t : Tables) (z : Z80) (b : Bus) : Opcode :=
  if b.Read z.pc = 0xdd then t.dd (b.Read (z.pc+1))
  else if b.Read z.pc = 0xed then t.ed (b.Read (z.pc+1))
  else if b.Read z.pc = 0xfd then t.fd (b.Read (z.pc+1))
  else t.base (b.Read z.pc)

/-- Modelled from the spec: a concrete instance of the descriptor tables used
by the closed witness and counterexample statements.  The real tables live in
a repository file outside src/; byte lengths and nominal cycle counts here
follow the documented ISA timing the spec refers to, and entries not needed by
any concrete statement are left at the zero descriptor. -/
def specTables : Tables where
  base := fun opc =>
    if opc = 0x00 then ⟨["nop", "nop"], .noOperand, .noOperand, [], [], 1, 4, false⟩
    else if opc = 0x01 then ⟨["ld", "lxi"], .register, .immediateExtended, ["bc", "b"], [], 3, 10, false⟩
    else if opc = 0x04 then ⟨["inc", "inr"], .register, .noOperand, ["b", "b"], [], 1, 4, false⟩
    else if opc = 0x28 then ⟨["jr z", "jrz"], .displacement, .noOperand, [], [], 2, 12, false⟩
    else if opc = 0x3a then ⟨["ld", "lda"], .register, .extended, ["a", "a"], [], 3, 13, false⟩
    else if opc = 0x76 then ⟨["halt", "hlt"], .noOperand, .noOperand, [], [], 1, 4, false⟩
    else if opc = 0xc1 then ⟨["pop", "pop"], .register, .noOperand, ["bc", "b"], [], 1, 10, false⟩
    else if opc = 0xc2 then ⟨["jp nz", "jnz"], .condition, .immediateExtended, ["nz", "nz"], [], 3, 10, false⟩
    else if opc = 0xc5 then ⟨["push", "push"], .register, .noOperand, ["bc", "b"], [], 1, 11, false⟩
    else if opc = 0xc9 then ⟨["ret", "ret"], .noOperand, .noOperand, [], [], 1, 10, false⟩
    else if opc = 0xcd then ⟨["call", "call"], .immediateExtended, .noOperand, [], [], 3, 17, false⟩
    else if opc = 0xdd then ⟨["dd", "dd"], .noOperand, .noOperand, [], [], 1, 0, true⟩
    else if opc = 0xed then ⟨["ed", "ed"], .noOperand, .noOperand, [], [], 1, 0, true⟩
    else Opcode.empty
  dd := fun _ => Opcode.empty
  ed := fun _ => Opcode.empty
  fd := fun _ => Opcode.empty

/-- Concrete state for the jr z not-taken counterexample: zero flag clear. -/
def zJrz : Z80 := ⟨0, 0, 0, 0, 0, 0, 0, 0x200, 0, .ModeZ80⟩

/-- Memory for the jr z counterexample: a jr z with displacement 5 at address 0. -/
def bJrz : Bus := ⟨fun a => if a = 0 then 0x28 else if a = 1 then 5 else 0, fun _ => 0⟩

/-- Concrete state for the fall-through witness. -/
def zNop : Z80 := ⟨0, 0, 0, 0, 0, 0, 0, 0x200, 0, .ModeZ80⟩

/-- Memory holding a nop at address 0. -/
def bNop : Bus := ⟨fun _ => 0, fun _ => 0⟩

/-- Concrete state with register b = 0x7f, for the 8-bit increment boundary. -/
def zIncB : Z80 := ⟨0, 0x7f00, 0, 0, 0, 0, 0, 0, 0, .ModeZ80⟩

/-- Concrete state with register b = 0xff, for the 8-bit increment zero case. -/
def zIncBff : Z80 := ⟨0, 0xff00, 0, 0, 0, 0, 0, 0, 0, .ModeZ80⟩

/-- Concrete state with register c = 0x7f, for the low-half increment boundary. -/
def zIncC : Z80 := ⟨0, 0x007f, 0, 0, 0, 0, 0, 0, 0, .ModeZ80⟩

/-- Concrete state for the push/pop round trip: bc = 0x1234, sp = 0x100. -/
def zPush : Z80 := ⟨0, 0x1234, 0, 0, 0, 0, 0, 0x100, 0, .ModeZ80⟩

/-- Memory for the push/pop round trip: push bc at 0, pop bc at 1. -/
def bPushPop : Bus := ⟨fun a => if a = 0 then 0xc5 else if a = 1 then 0xc1 else 0, fun _ => 0⟩

/-- Concrete state for the call/ret round trip: sp = 0x100. -/
def zCall : Z80 := ⟨0, 0, 0, 0, 0, 0, 0, 0x100, 0, .ModeZ80⟩

/-- Memory for the call/ret round trip: call 0x0040 at 0, ret at 0x40. -/
def bCallRet : Bus :=
  ⟨fun a => if a = 0 then 0xcd else if a = 1 then 0x40 else if a = 2 then 0 else
            if a = 0x40 then 0xc9 else 0, fun _ => 0⟩

/-- Concrete state for the halt witness. -/
def zHalt : Z80 := ⟨0, 0, 0, 0, 0, 0, 0, 0x100, 0, .ModeZ80⟩

/-- Memory holding a halt at address 0. -/
def bHalt : Bus := ⟨fun a => if a = 0 then 0x76 else 0, fun _ => 0⟩

/-- Concrete state for the prefix-page invalid counterexample. -/
def zPrefixBad : Z80 := ⟨0, 0, 0, 0, 0, 0, 0, 0x100, 0, .ModeZ80⟩

/-- Memory holding the 0xdd prefix followed by an unhandled second byte 0x00. -/
def bPrefixBad : Bus := ⟨fun a => if a = 0 then 0xdd else 0, fun _ => 0⟩

/-- Concrete state for the base-page invalid witness. -/
def zBaseBad : Z80 := ⟨0, 0, 0, 0, 0, 0, 0, 0x100, 0, .ModeZ80⟩

/-- Memory holding the unhandled base-page byte 0x05 at address 0. -/
def bBaseBad : Bus := ⟨fun a => if a = 0 then 0x05 else 0, fun _ => 0⟩

/-- Concrete state for an 0xed-page invalid decode, with registers set to
recognizable values to exhibit that nothing changes. -/
def zEdBad : Z80 := ⟨0x1122, 0x3344, 0x5566, 0x7788, 0x99aa, 0xbbcc, 0, 0x100, 7, .ModeZ80⟩

/-- Memory holding the 0xed prefix followed by an unhandled second byte 0x00. -/
def bEdBad : Bus := ⟨fun a => if a = 0 then 0xed else 0, fun _ => 0⟩

/-- Concrete state with the zero flag clear, so jp nz takes the branch. -/
def zJpnzTaken : Z80 := ⟨0, 0, 0, 0, 0, 0, 0, 0x100, 0, .ModeZ80⟩

/-- Concrete state with the zero flag set, so jp nz falls through. -/
def zJpnzNot : Z80 := ⟨64, 0, 0, 0, 0, 0, 0, 0x100, 0, .ModeZ80⟩

/-- Memory for the conditional-jump statements: jp nz,0x0010 at address 0. -/
def bJpnz : Bus := ⟨fun a => if a = 0 then 0xc2 else if a = 1 then 0x10 else 0, fun _ => 0⟩

/-- Concrete state for the ld a,(nn) flag-clobbering input: a = 0x34 and all
flag bits set (flag byte 0xff). -/
def zLdaNN : Z80 := ⟨0x34ff, 0, 0, 0, 0, 0, 0, 0x100, 0, .ModeZ80⟩

/-- Memory for the ld a,(nn) input: ld a,(0x1234) at address 0 and 0x56 at 0x1234. -/
def bLdaNN : Bus :=
  ⟨fun a => if a = 0 then 0x3a else if a = 1 then 0x34 else if a = 2 then 0x12 else
            if a = 0x1234 then 0x56 else 0, fun _ => 0⟩

/-- Concrete state for the disassembler witness. -/
def zDis : Z80 := ⟨0, 0, 0, 0, 0, 0, 0, 0, 0, .ModeZ80⟩

/-- Memory holding the table-less byte 0x05 at address 0. -/
def bDis : Bus := ⟨fun a => if a = 0 then 0x05 else 0, fun _ => 0⟩

@[simp] theorem evalS_pc (z : Z80) (s : Nat) : (z.evalS s).pc = z.pc := by
  unfold Z80.evalS; split <;> rfl

@[simp] theorem evalS_totalCycles (z : Z80) (s : Nat) : (z.evalS s).totalCycles = z.totalCycles := by
  unfold Z80.evalS; split <;> rfl

@[simp] theorem evalZ_pc (z : Z80) (s : Nat) : (z.evalZ s).pc = z.pc := by
  unfold Z80.evalZ; split <;> rfl

@[simp] theorem evalZ_totalCycles (z : Z80) (s : Nat) : (z.evalZ s).totalCycles = z.totalCycles := by
  unfold Z80.evalZ; split <;> rfl

@[simp] theorem evalH_pc (z : Z80) (s i : Nat) : (z.evalH s i).pc = z.pc := by
  unfold Z80.evalH; split <;> rfl

@[simp] theorem evalH_totalCycles (z : Z80) (s i : Nat) : (z.evalH s i).totalCycles = z.totalCycles := by
  unfold Z80.evalH; split <;> rfl

theorem Bus.read_write (b : Bus) (a v c : Nat) :
    (b.Write a v).Read c = if c % 65536 = a % 65536 then v % 256 else b.Read c := by
  unfold Bus.Read Bus.Write
  dsimp only
  split
  · omega
  · rfl

theorem Bus.read_lt (b : Bus) (a : Nat) : b.Read a < 256 := by
  unfold Bus.Read; omega

theorem recomb16 (v : Nat) (hv : v < 65536) :
    ((((v >>> 8) % 256) <<< 8) ||| (((v % 256) ||| (v &&& 65280)) &&& 255)) = v := by
  rw [Nat.and_distrib_right, Nat.and_assoc]
  have e1 : (65280 &&& 255 : Nat) = 0 := by decide
  rw [e1, Nat.and_zero, Nat.or_zero]
  have e2 : v % 256 &&& 255 = v % 256 := by
    have h := Nat.and_pow_two_sub_one_eq_mod (v % 256) 8
    norm_num at h
    omega
  rw [e2, Nat.shiftLeft_eq, Nat.shiftRight_eq_div_pow]
  norm_num
  have e3 : (256 : Nat) * (v / 256 % 256) + v % 256 = 256 * (v / 256 % 256) ||| v % 256 := by
    have h := Nat.mul_add_lt_is_or (b := v % 256) (i := 8) (by omega) (v / 256 % 256)
    norm_num at h
    exact h
  rw [Nat.mul_comm] at e3
  rw [← e3]
  omega

theorem byteRecomb (h l : Nat) (hl : l < 256) :
    (h <<< 8) ||| (l &&& 255) = h * 256 + l := by
  have e2 : l &&& 255 = l := by
    have e := Nat.and_pow_two_sub_one_eq_mod l 8
    norm_num at e
    omega
  have e3 : (256 : Nat) * h + l = 256 * h ||| l := by
    have e := Nat.mul_add_lt_is_or (b := l) (i := 8) (by omega) h
    norm_num at e
    exact e
  rw [e2, Nat.shiftLeft_eq, show (2 : Nat) ^ 8 = 256 from rfl, Nat.mul_comm, ← e3]

theorem stepSwitch_base_default (t : Tables) (z : Z80) (b : Bus)
    (h : b.Read z.pc ∉ baseHandled) :
    stepSwitch t z b = .early z b (some (.invalidAt (b.Read z.pc) z.pc)) := by
  simp only [baseHandled, List.mem_cons, List.not_mem_nil, or_false, not_or] at h
  simp [stepSwitch, h]

theorem stepSwitch_dd_default (t : Tables) (z : Z80) (b : Bus)
    (h1 : b.Read z.pc = 0xdd) (h2 : b.Read (z.pc+1) ∉ ddHandled) :
    stepSwitch t z b = .early z b (some .invalid) := by
  simp only [ddHandled, List.mem_cons, List.not_mem_nil, or_false, not_or] at h2
  simp [stepSwitch, h1, h2]

theorem stepSwitch_ed_default (t : Tables) (z : Z80) (b : Bus)
    (h1 : b.Read z.pc = 0xed) (h2 : b.Read (z.pc+1) ∉ edHandled) :
    stepSwitch t z b = .early z b (some .invalid) := by
  simp only [edHandled, List.mem_cons, List.not_mem_nil, or_false, not_or] at h2
  simp [stepSwitch, h1, h2]

theorem stepSwitch_fd_default (t : Tables) (z : Z80) (b : Bus)
    (h1 : b.Read z.pc = 0xfd) (h2 : b.Read (z.pc+1) ∉ fdHandled) :
    stepSwitch t z b = .early z b (some .invalid) := by
  simp only [fdHandled, List.mem_cons, List.not_mem_nil, or_false, not_or] at h2
  simp [stepSwitch, h1, h2]

/-- C5: when Step reads the halt opcode (0x76) it returns the Halt signal,
adds the halt descriptor's cycle cost to the cycle counter exactly once, and
leaves the program counter (and every other register, and the bus) unchanged. -/
theorem step_halt_once (t : Tables) (z : Z80) (b : Bus) (h : b.Read z.pc = 0x76) :
    Step t z b =
      ({ z with totalCycles := (z.totalCycles + (t.base 0x76).noCycles) % 18446744073709551616 },
       b, some .halt) := by
  simp [Step, stepSwitch, h]

/-- Witness for C5 at a concrete machine: halt at address 0 with the modelled
4-cycle descriptor. -/
theorem step_halt_once_witness :
    Step specTables zHalt bHalt =
      ({ zHalt with totalCycles :=
          (zHalt.totalCycles + (specTables.base 0x76).noCycles) % 18446744073709551616 },
       bHalt, some .halt) :=
  step_halt_once specTables zHalt bHalt (by decide)

/-- C9: an opcode byte whose table entry is absent (the zero descriptor, with
its empty mnemonic) makes DisassembleComponents return the mnemonic text
INVALID, empty destination and source operand text, and a byte length of
exactly 1. -/
theorem disassemble_empty_entry_invalid (t : Tables) (z : Z80) (b : Bus) (address : Nat)
    (h : t.base (b.Read address) = Opcode.empty) :
    DisassembleComponents t z b address = ("INVALID", "", "", 1) := by
  simp [DisassembleComponents, h, Opcode.empty]

/-- Witness for C9 at a concrete machine: byte 0x05 has no entry in the
modelled tables. -/
theorem disassemble_empty_entry_invalid_witness :
    DisassembleComponents specTables zDis bDis 0 = ("INVALID", "", "", 1) :=
  disassemble_empty_entry_invalid specTables zDis bDis 0 (by decide)

/-- C6 counterexample: on the 0xdd prefix page an unknown second byte returns
the bare Invalid-Instruction sentinel, which does not carry the offending
byte or its address (it differs from every payload-carrying form). -/
theorem prefix_invalid_lacks_payload :
    (Step specTables zPrefixBad bPrefixBad).2.2 = some Err.invalid ∧
    Err.invalid ≠ Err.invalidAt 0xdd 0 ∧
    Err.invalid ≠ Err.invalidAt 0 1 := by
  refine ⟨by decide, by decide, by decide⟩

/-- C6 amended: an unknown base-page first byte returns an
Invalid-Instruction signal carrying the offending byte and its address, while
an unknown second byte within the 0xdd, 0xed or 0xfd prefix pages returns the
bare Invalid-Instruction sentinel without byte or address payload. -/
theorem step_invalid_signal_forms (t : Tables) (z : Z80) (b : Bus) :
    (b.Read z.pc ∉ baseHandled →
      Step t z b = (z, b, some (.invalidAt (b.Read z.pc) z.pc))) ∧
    (b.Read z.pc = 0xdd → b.Read (z.pc+1) ∉ ddHandled →
      Step t z b = (z, b, some .invalid)) ∧
    (b.Read z.pc = 0xed → b.Read (z.pc+1) ∉ edHandled →
      Step t z b = (z, b, some .invalid)) ∧
    (b.Read z.pc = 0xfd → b.Read (z.pc+1) ∉ fdHandled →
      Step t z b = (z, b, some .invalid)) := by
  refine ⟨fun h => ?_, fun h1 h2 => ?_, fun h1 h2 => ?_, fun h1 h2 => ?_⟩
  · rw [Step, stepSwitch_base_default t z b h]
  · rw [Step, stepSwitch_dd_default t z b h1 h2]
  · rw [Step, stepSwitch_ed_default t z b h1 h2]
  · rw [Step, stepSwitch_fd_default t z b h1 h2]

/-- Witness for the amended C6 at a concrete machine: the unhandled base-page
byte 0x05 yields the payload-carrying signal. -/
theorem step_invalid_signal_forms_witness :
    Step specTables zBaseBad bBaseBad =
      (zBaseBad, bBaseBad,
       some (.invalidAt (bBaseBad.Read zBaseBad.pc) zBaseBad.pc)) :=
  (step_invalid_signal_forms specTables zBaseBad bBaseBad).1 (by decide)

/-- C10: whenever Step fails to decode (unknown base-page first byte, or
unknown second byte in the 0xdd, 0xed or 0xfd prefix pages) it returns an
invalid-instruction signal and leaves the entire CPU state and the bus
exactly as they were. -/
theorem step_invalid_preserves_state (t : Tables) (z : Z80) (b : Bus)
    (h : b.Read z.pc ∉ baseHandled ∨
         (b.Read z.pc = 0xdd ∧ b.Read (z.pc+1) ∉ ddHandled) ∨
         (b.Read z.pc = 0xed ∧ b.Read (z.pc+1) ∉ edHandled) ∨
         (b.Read z.pc = 0xfd ∧ b.Read (z.pc+1) ∉ fdHandled)) :
    (Step t z b).1 = z ∧ (Step t z b).2.1 = b ∧ (Step t z b).2.2 ≠ none := by
  rcases h with h | ⟨h1, h2⟩ | ⟨h1, h2⟩ | ⟨h1, h2⟩
  · rw [Step, stepSwitch_base_default t z b h]; exact ⟨rfl, rfl, by simp⟩
  · rw [Step, stepSwitch_dd_default t z b h1 h2]; exact ⟨rfl, rfl, by simp⟩
  · rw [Step, stepSwitch_ed_default t z b h1 h2]; exact ⟨rfl, rfl, by simp⟩
  · rw [Step, stepSwitch_fd_default t z b h1 h2]; exact ⟨rfl, rfl, by simp⟩

/-- Witness for C10 at a concrete machine: 0xed followed by the unhandled
second byte 0x00 leaves the fully populated register file, cycle counter and
bus untouched. -/
theorem step_invalid_preserves_state_witness :
    (Step specTables zEdBad bEdBad).1 = zEdBad ∧
    (Step specTables zEdBad bEdBad).2.1 = bEdBad ∧
    (Step specTables zEdBad bEdBad).2.2 ≠ none :=
  step_invalid_preserves_state specTables zEdBad bEdBad
    (Or.inr (Or.inr (Or.inl ⟨by decide, by decide⟩)))

/-- C1 counterexample: the not-taken jr z case (opcode 0x28, zero flag clear)
falls through to the generic post-instruction step (PC advances by the
descriptor byte length) yet the cycle counter grows by the descriptor cycle
count plus 7, not by exactly the descriptor cycle count. -/
theorem jrz_not_taken_breaks_exact_cycles :
    (Step specTables zJrz bJrz).1.pc = (zJrz.pc + (specTables.base 0x28).noBytes) % 65536 ∧
    (Step specTables zJrz bJrz).1.totalCycles ≠
      (zJrz.totalCycles + (specTables.base 0x28).noCycles) % 18446744073709551616 := by
  refine ⟨by decide, by decide⟩

/-- C1 amended: every base-page and prefix-page case that falls through to the
generic post-instruction step advances PC by exactly the effective
descriptor's byte length and adds exactly the descriptor's cycle count —
except the not-taken jr z case, which first adds 7 extra cycles. -/
theorem step_fallthrough_advances_pc_and_cycles (t : Tables) (z : Z80) (b : Bus)
    (h : b.Read z.pc ∈ baseFall ∨ condNotTaken z (b.Read z.pc)
         ∨ prefixThru (b.Read z.pc) (b.Read (z.pc+1))) :
    (Step t z b).1.pc = (z.pc + (effOpcode t z b).noBytes) % 65536 ∧
    (Step t z b).1.totalCycles =
      (z.totalCycles + (effOpcode t z b).noCycles
        + (if b.Read z.pc = 0x28 then 7 else 0)) % 18446744073709551616 ∧
    (Step t z b).2.2 = none := by
  rcases h with hb | hc | hp
  · simp only [baseFall, List.mem_cons, List.not_mem_nil, or_false] at hb
    rcases hb with hb | hb | hb | hb | hb | hb | hb | hb | hb | hb | hb | hb | hb | hb | hb | hb | hb | hb | hb | hb | hb | hb | hb | hb | hb | hb | hb | hb | hb | hb | hb | hb | hb | hb | hb | hb | hb | hb | hb | hb | hb | hb | hb | hb | hb | hb | hb | hb | hb | hb | hb | hb | hb | hb | hb | hb | hb | hb | hb | hb | hb | hb | hb | hb | hb | hb | hb | hb | hb | hb | hb | hb | hb | hb | hb | hb | hb | hb | hb | hb | hb | hb | hb | hb | hb | hb | hb | hb | hb | hb | hb | hb | hb | hb | hb | hb | hb | hb | hb | hb | hb | hb | hb | hb | hb | hb | hb | hb | hb
    all_goals simp [Step, stepSwitch, genericPostInstruction, effOpcode, hb, Z80.inc8H,
      Z80.inc8L, Z80.set, apply_ite Z80.pc, apply_ite Z80.totalCycles, ite_self]
  · rcases hc with ⟨h1, h2⟩ | ⟨h1, h2⟩ | ⟨h1, h2⟩ | ⟨h1, h2⟩ | ⟨h1, h2⟩ | ⟨h1, h2⟩ | ⟨h1, h2⟩ | ⟨h1, h2⟩ | ⟨h1, h2⟩ | ⟨h1, h2⟩
    all_goals simp [Step, stepSwitch, genericPostInstruction, effOpcode, h1, h2]
    all_goals omega
  · rcases hp with ⟨h1, h2 | h2 | h2 | h2⟩ | ⟨h1, h2⟩ | ⟨h1, h2 | h2 | h2 | h2⟩
    all_goals simp [Step, stepSwitch, genericPostInstruction, effOpcode, h1, h2,
      apply_ite Z80.pc, apply_ite Z80.totalCycles, ite_self]

/-- Witness for the amended C1 at a concrete machine: a nop at address 0. -/
theorem step_fallthrough_advances_pc_and_cycles_witness :
    (Step specTables zNop bNop).1.pc =
      (zNop.pc + (effOpcode specTables zNop bNop).noBytes) % 65536 ∧
    (Step specTables zNop bNop).1.totalCycles =
      (zNop.totalCycles + (effOpcode specTables zNop bNop).noCycles
        + (if bNop.Read zNop.pc = 0x28 then 7 else 0)) % 18446744073709551616 ∧
    (Step specTables zNop bNop).2.2 = none :=
  step_fallthrough_advances_pc_and_cycles specTables zNop bNop (Or.inl (by decide))

/-- C2 counterexample: incrementing an 8-bit register half whose pre-increment
value is 0x7F yields 0x80, so evalS sets the sign flag — the claim says the
sign flag is left clear. -/
theorem inc8H_from_7f_sets_sign :
    (zIncB.bc >>> 8) % 256 = 0x7f ∧ (zIncB.inc8H .bc).af.testBit 7 = true := by
  refine ⟨by decide, by decide⟩

/-- C2 amended: incrementing an 8-bit register half (inc8H or inc8L) whose
pre-increment value is 0x7F leaves the zero flag (bit 6) clear, sets the sign
flag (bit 7, the result 0x80 is negative), sets half-carry (bit 4), sets
overflow (parity bit 2), clears add/subtract (bit 1), and leaves the carry
flag (bit 0) unchanged; incrementing from 0xFF sets the zero flag. -/
theorem inc8_boundary_flags (z w u : Z80)
    (hz : (z.bc >>> 8) % 256 = 127)
    (hw : (w.bc >>> 8) % 256 = 255)
    (hu : u.bc &&& 255 = 127) :
    ((z.inc8H .bc).af.testBit 6 = false ∧
     (z.inc8H .bc).af.testBit 7 = true ∧
     (z.inc8H .bc).af.testBit 4 = true ∧
     (z.inc8H .bc).af.testBit 2 = true ∧
     (z.inc8H .bc).af.testBit 1 = false ∧
     (z.inc8H .bc).af.testBit 0 = z.af.testBit 0) ∧
    (w.inc8H .bc).af.testBit 6 = true ∧
    ((u.inc8L .bc).af.testBit 6 = false ∧
     (u.inc8L .bc).af.testBit 7 = true ∧
     (u.inc8L .bc).af.testBit 4 = true ∧
     (u.inc8L .bc).af.testBit 2 = true ∧
     (u.inc8L .bc).af.testBit 1 = false ∧
     (u.inc8L .bc).af.testBit 0 = u.af.testBit 0) := by
  unfold Z80.inc8H Z80.inc8L Z80.get
  rw [hz, hw, hu]
  simp [Z80.set, Z80.evalS, Z80.evalZ, Z80.evalH, andNot16, sign, zero, parity, halfCarry,
    addsub, carry, Nat.testBit_and, Nat.testBit_or,
    show Nat.testBit 4 0 = false by decide,
    show Nat.testBit 4 1 = false by decide,
    show Nat.testBit 4 2 = true by decide,
    show Nat.testBit 4 4 = false by decide,
    show Nat.testBit 4 6 = false by decide,
    show Nat.testBit 4 7 = false by decide,
    show Nat.testBit 16 0 = false by decide,
    show Nat.testBit 16 1 = false by decide,
    show Nat.testBit 16 2 = false by decide,
    show Nat.testBit 16 4 = true by decide,
    show Nat.testBit 16 6 = false by decide,
    show Nat.testBit 16 7 = false by decide,
    show Nat.testBit 64 0 = false by decide,
    show Nat.testBit 64 1 = false by decide,
    show Nat.testBit 64 2 = false by decide,
    show Nat.testBit 64 4 = false by decide,
    show Nat.testBit 64 6 = true by decide,
    show Nat.testBit 64 7 = false by decide,
    show Nat.testBit 128 0 = false by decide,
    show Nat.testBit 128 1 = false by decide,
    show Nat.testBit 128 2 = false by decide,
    show Nat.testBit 128 4 = false by decide,
    show Nat.testBit 128 6 = false by decide,
    show Nat.testBit 128 7 = true by decide,
    show Nat.testBit 65407 0 = true by decide,
    show Nat.testBit 65407 1 = true by decide,
    show Nat.testBit 65407 2 = true by decide,
    show Nat.testBit 65407 4 = true by decide,
    show Nat.testBit 65407 6 = true by decide,
    show Nat.testBit 65407 7 = false by decide,
    show Nat.testBit 65471 0 = true by decide,
    show Nat.testBit 65471 1 = true by decide,
    show Nat.testBit 65471 2 = true by decide,
    show Nat.testBit 65471 4 = true by decide,
    show Nat.testBit 65471 6 = false by decide,
    show Nat.testBit 65471 7 = true by decide,
    show Nat.testBit 65531 0 = true by decide,
    show Nat.testBit 65531 1 = true by decide,
    show Nat.testBit 65531 2 = false by decide,
    show Nat.testBit 65531 4 = true by decide,
    show Nat.testBit 65531 6 = true by decide,
    show Nat.testBit 65531 7 = true by decide,
    show Nat.testBit 65533 0 = true by decide,
    show Nat.testBit 65533 1 = false by decide,
    show Nat.testBit 65533 2 = true by decide,
    show Nat.testBit 65533 4 = true by decide,
    show Nat.testBit 65533 6 = true by decide,
    show Nat.testBit 65533 7 = true by decide,
    show Nat.testBit 65535 0 = true by decide,
    show Nat.testBit 65535 1 = true by decide,
    show Nat.testBit 65535 2 = true by decide,
    show Nat.testBit 65535 4 = true by decide,
    show Nat.testBit 65535 6 = true by decide,
    show Nat.testBit 65535 7 = true by decide]

/-- Witness for the amended C2 at concrete registers: b = 0x7f, b = 0xff and
c = 0x7f. -/
theorem inc8_boundary_flags_witness :
    ((zIncB.inc8H .bc).af.testBit 6 = false ∧
     (zIncB.inc8H .bc).af.testBit 7 = true ∧
     (zIncB.inc8H .bc).af.testBit 4 = true ∧
     (zIncB.inc8H .bc).af.testBit 2 = true ∧
     (zIncB.inc8H .bc).af.testBit 1 = false ∧
     (zIncB.inc8H .bc).af.testBit 0 = zIncB.af.testBit 0) ∧
    (zIncBff.inc8H .bc).af.testBit 6 = true ∧
    ((zIncC.inc8L .bc).af.testBit 6 = false ∧
     (zIncC.inc8L .bc).af.testBit 7 = true ∧
     (zIncC.inc8L .bc).af.testBit 4 = true ∧
     (zIncC.inc8L .bc).af.testBit 2 = true ∧
     (zIncC.inc8L .bc).af.testBit 1 = false ∧
     (zIncC.inc8L .bc).af.testBit 0 = zIncC.af.testBit 0) :=
  inc8_boundary_flags zIncB zIncBff zIncC (by decide) (by decide) (by decide)

theorem Step_eq_thru (t : Tables) (z : Z80) (b : Bus) (z' : Z80) (b' : Bus) (o : Opcode)
    (h : stepSwitch t z b = .thru z' b' o) :
    Step t z b = (genericPostInstruction o z', b', none) := by
  unfold Step
  rw [h]

theorem Step_eq_early (t : Tables) (z : Z80) (b : Bus) (z' : Z80) (b' : Bus) (e : Option Err)
    (h : stepSwitch t z b = .early z' b' e) :
    Step t z b = (z', b', e) := by
  unfold Step
  rw [h]

theorem stepSwitch_push_bc (t : Tables) (z : Z80) (b : Bus) (h : b.Read z.pc = 0xc5) :
    stepSwitch t z b = .thru { z with sp := ((z.sp + 65535) % 65536 + 65535) % 65536 }
      ((b.Write ((z.sp + 65535) % 65536) ((z.bc >>> 8) % 256)).Write
        (((z.sp + 65535) % 65536 + 65535) % 65536) (z.bc % 256))
      (t.base 0xc5) := by
  simp [stepSwitch, h]

theorem stepSwitch_pop_bc (t : Tables) (z : Z80) (b : Bus) (h : b.Read z.pc = 0xc1) :
    stepSwitch t z b = .thru { z with
        bc := (b.Read ((z.sp + 1) % 65536) <<< 8) ||| ((b.Read z.sp ||| (z.bc &&& 65280)) &&& 255),
        sp := ((z.sp + 1) % 65536 + 1) % 65536 } b (t.base 0xc1) := by
  simp [stepSwitch, h]

/-- C3: pushing a register pair (opcode 0xc5 push bc) and then executing the
corresponding pop (opcode 0xc1 pop bc, reached because PC advanced by the push
descriptor's byte length and the pushed bytes did not overwrite the pop
opcode) restores the pair's original 16-bit value and the original stack
pointer; the push writes the high byte at the first-decrement (higher) address
and the low byte at the second-decrement (lower) address, and pop reads low
then high, incrementing twice. -/
theorem push_pop_roundtrip (t : Tables) (z : Z80) (b : Bus)
    (hbc : z.bc < 65536) (hsp : z.sp < 65536)
    (h0 : b.Read z.pc = 0xc5)
    (h1 : b.Read ((z.pc + (t.base 0xc5).noBytes) % 65536) = 0xc1)
    (hna : (z.sp + 65535) % 65536 ≠ (z.pc + (t.base 0xc5).noBytes) % 65536)
    (hnb : (z.sp + 65534) % 65536 ≠ (z.pc + (t.base 0xc5).noBytes) % 65536) :
    (Step t (Step t z b).1 (Step t z b).2.1).1.bc = z.bc ∧
    (Step t (Step t z b).1 (Step t z b).2.1).1.sp = z.sp ∧
    (Step t z b).2.2 = none ∧
    (Step t (Step t z b).1 (Step t z b).2.1).2.2 = none ∧
    (Step t z b).2.1.Read ((z.sp + 65535) % 65536) = (z.bc >>> 8) % 256 ∧
    (Step t z b).2.1.Read ((z.sp + 65534) % 65536) = z.bc % 256 := by
  have e1 := Step_eq_thru t z b _ _ _ (stepSwitch_push_bc t z b h0)
  have hb1pc : ((b.Write ((z.sp + 65535) % 65536) ((z.bc >>> 8) % 256)).Write
         (((z.sp + 65535) % 65536 + 65535) % 65536) (z.bc % 256)).Read
         ((z.pc + (t.base 0xc5).noBytes) % 65536) = 0xc1 := by
    rw [Bus.read_write, if_neg (by omega), Bus.read_write, if_neg (by omega)]
    exact h1
  have hrd_lo : ((b.Write ((z.sp + 65535) % 65536) ((z.bc >>> 8) % 256)).Write
         (((z.sp + 65535) % 65536 + 65535) % 65536) (z.bc % 256)).Read
         (((z.sp + 65535) % 65536 + 65535) % 65536) = z.bc % 256 := by
    rw [Bus.read_write, if_pos rfl]
    omega
  have hrd_hi : ((b.Write ((z.sp + 65535) % 65536) ((z.bc >>> 8) % 256)).Write
         (((z.sp + 65535) % 65536 + 65535) % 65536) (z.bc % 256)).Read
         ((((z.sp + 65535) % 65536 + 65535) % 65536 + 1) % 65536) = (z.bc >>> 8) % 256 := by
    rw [Bus.read_write, if_neg (by omega), Bus.read_write, if_pos (by omega)]
    omega
  have hrd_sp1 : ((b.Write ((z.sp + 65535) % 65536) ((z.bc >>> 8) % 256)).Write
         (((z.sp + 65535) % 65536 + 65535) % 65536) (z.bc % 256)).Read
         ((z.sp + 65535) % 65536) = (z.bc >>> 8) % 256 := by
    rw [Bus.read_write, if_neg (by omega), Bus.read_write, if_pos rfl]
    omega
  have hrd_sp2 : ((b.Write ((z.sp + 65535) % 65536) ((z.bc >>> 8) % 256)).Write
         (((z.sp + 65535) % 65536 + 65535) % 65536) (z.bc % 256)).Read
         ((z.sp + 65534) % 65536) = z.bc % 256 := by
    rw [Bus.read_write, if_pos (by omega)]
    omega
  rw [e1]
  unfold genericPostInstruction
  dsimp only
  have e2 := Step_eq_thru t _ _ _ _ _ (stepSwitch_pop_bc t
    { z with sp := ((z.sp + 65535) % 65536 + 65535) % 65536,
             pc := (z.pc + (t.base 0xc5).noBytes) % 65536,
             totalCycles := (z.totalCycles + (t.base 0xc5).noCycles) % 18446744073709551616 }
    ((b.Write ((z.sp + 65535) % 65536) ((z.bc >>> 8) % 256)).Write
        (((z.sp + 65535) % 65536 + 65535) % 65536) (z.bc % 256)) hb1pc)
  rw [e2]
  unfold genericPostInstruction
  dsimp only
  rw [hrd_lo, hrd_hi]
  refine ⟨recomb16 z.bc hbc, by omega, rfl, rfl, hrd_sp1, hrd_sp2⟩


theorem stepSwitch_call (t : Tables) (z : Z80) (b : Bus) (h : b.Read z.pc = 0xcd) :
    stepSwitch t z b = .early { z with
        sp := ((z.sp + 65535) % 65536 + 65535) % 65536,
        pc := ((b.Write ((z.sp + 65535) % 65536)
                  ((((z.pc + (t.base 0xcd).noBytes) % 65536) >>> 8) % 256)).Write
                (((z.sp + 65535) % 65536 + 65535) % 65536)
                (((z.pc + (t.base 0xcd).noBytes) % 65536) % 256)).Read (z.pc+1)
              ||| (((b.Write ((z.sp + 65535) % 65536)
                  ((((z.pc + (t.base 0xcd).noBytes) % 65536) >>> 8) % 256)).Write
                (((z.sp + 65535) % 65536 + 65535) % 65536)
                (((z.pc + (t.base 0xcd).noBytes) % 65536) % 256)).Read (z.pc+2) <<< 8),
        totalCycles := (z.totalCycles + (t.base 0xcd).noCycles) % 18446744073709551616 }
      ((b.Write ((z.sp + 65535) % 65536)
          ((((z.pc + (t.base 0xcd).noBytes) % 65536) >>> 8) % 256)).Write
        (((z.sp + 65535) % 65536 + 65535) % 65536)
        (((z.pc + (t.base 0xcd).noBytes) % 65536) % 256))
      none := by
  simp [stepSwitch, h]

theorem stepSwitch_ret (t : Tables) (z : Z80) (b : Bus) (h : b.Read z.pc = 0xc9) :
    stepSwitch t z b = .early { z with
        pc := (b.Read ((z.sp + 1) % 65536) <<< 8) ||| (b.Read z.sp &&& 255),
        sp := ((z.sp + 1) % 65536 + 1) % 65536,
        totalCycles := (z.totalCycles + (t.base 0xc9).noCycles) % 18446744073709551616 } b
      none := by
  simp [stepSwitch, h]

/-- C4: a call (opcode 0xcd) pushes the address of the instruction
immediately following it (call PC plus the descriptor byte length, high byte
at the first-decrement address) before jumping to its operand address, and a
ret (opcode 0xc9) found there pops that address back into PC; the pair leaves
PC at the instruction after the call and restores the pre-call stack pointer.
The stack writes are assumed not to overwrite the call operand bytes or the
ret opcode. -/
theorem call_ret_roundtrip (t : Tables) (z : Z80) (b : Bus)
    (hsp : z.sp < 65536)
    (h0 : b.Read z.pc = 0xcd)
    (hret : b.Read (b.Read (z.pc+1) ||| (b.Read (z.pc+2) <<< 8)) = 0xc9)
    (hna1 : (z.sp + 65535) % 65536 ≠ (z.pc + 1) % 65536)
    (hna2 : (z.sp + 65534) % 65536 ≠ (z.pc + 1) % 65536)
    (hnb1 : (z.sp + 65535) % 65536 ≠ (z.pc + 2) % 65536)
    (hnb2 : (z.sp + 65534) % 65536 ≠ (z.pc + 2) % 65536)
    (hnc1 : (z.sp + 65535) % 65536 ≠ (b.Read (z.pc+1) ||| (b.Read (z.pc+2) <<< 8)) % 65536)
    (hnc2 : (z.sp + 65534) % 65536 ≠ (b.Read (z.pc+1) ||| (b.Read (z.pc+2) <<< 8)) % 65536) :
    (Step t z b).1.pc = b.Read (z.pc+1) ||| (b.Read (z.pc+2) <<< 8) ∧
    (Step t z b).2.1.Read ((z.sp + 65535) % 65536) =
      (((z.pc + (t.base 0xcd).noBytes) % 65536) >>> 8) % 256 ∧
    (Step t z b).2.1.Read ((z.sp + 65534) % 65536) =
      ((z.pc + (t.base 0xcd).noBytes) % 65536) % 256 ∧
    (Step t (Step t z b).1 (Step t z b).2.1).1.pc = (z.pc + (t.base 0xcd).noBytes) % 65536 ∧
    (Step t (Step t z b).1 (Step t z b).2.1).1.sp = z.sp ∧
    (Step t z b).2.2 = none ∧
    (Step t (Step t z b).1 (Step t z b).2.1).2.2 = none := by
  have e1 := Step_eq_early t z b _ _ _ (stepSwitch_call t z b h0)
  have hr1 : ((b.Write ((z.sp + 65535) % 65536)
          ((((z.pc + (t.base 0xcd).noBytes) % 65536) >>> 8) % 256)).Write
        (((z.sp + 65535) % 65536 + 65535) % 65536)
        (((z.pc + (t.base 0xcd).noBytes) % 65536) % 256)).Read (z.pc+1) = b.Read (z.pc+1) := by
    rw [Bus.read_write, if_neg (by omega), Bus.read_write, if_neg (by omega)]
  have hr2 : ((b.Write ((z.sp + 65535) % 65536)
          ((((z.pc + (t.base 0xcd).noBytes) % 65536) >>> 8) % 256)).Write
        (((z.sp + 65535) % 65536 + 65535) % 65536)
        (((z.pc + (t.base 0xcd).noBytes) % 65536) % 256)).Read (z.pc+2) = b.Read (z.pc+2) := by
    rw [Bus.read_write, if_neg (by omega), Bus.read_write, if_neg (by omega)]
  have hrd_sp1 : ((b.Write ((z.sp + 65535) % 65536)
          ((((z.pc + (t.base 0xcd).noBytes) % 65536) >>> 8) % 256)).Write
        (((z.sp + 65535) % 65536 + 65535) % 65536)
        (((z.pc + (t.base 0xcd).noBytes) % 65536) % 256)).Read ((z.sp + 65535) % 65536) =
      (((z.pc + (t.base 0xcd).noBytes) % 65536) >>> 8) % 256 := by
    rw [Bus.read_write, if_neg (by omega), Bus.read_write, if_pos rfl]
    omega
  have hrd_sp2 : ((b.Write ((z.sp + 65535) % 65536)
          ((((z.pc + (t.base 0xcd).noBytes) % 65536) >>> 8) % 256)).Write
        (((z.sp + 65535) % 65536 + 65535) % 65536)
        (((z.pc + (t.base 0xcd).noBytes) % 65536) % 256)).Read ((z.sp + 65534) % 65536) =
      ((z.pc + (t.base 0xcd).noBytes) % 65536) % 256 := by
    rw [Bus.read_write, if_pos (by omega)]
    omega
  have hrd_lo2 : ((b.Write ((z.sp + 65535) % 65536)
          ((((z.pc + (t.base 0xcd).noBytes) % 65536) >>> 8) % 256)).Write
        (((z.sp + 65535) % 65536 + 65535) % 65536)
        (((z.pc + (t.base 0xcd).noBytes) % 65536) % 256)).Read
        (((z.sp + 65535) % 65536 + 65535) % 65536) =
      ((z.pc + (t.base 0xcd).noBytes) % 65536) % 256 := by
    rw [Bus.read_write, if_pos rfl]
    omega
  have hrd_hi2 : ((b.Write ((z.sp + 65535) % 65536)
          ((((z.pc + (t.base 0xcd).noBytes) % 65536) >>> 8) % 256)).Write
        (((z.sp + 65535) % 65536 + 65535) % 65536)
        (((z.pc + (t.base 0xcd).noBytes) % 65536) % 256)).Read
        ((((z.sp + 65535) % 65536 + 65535) % 65536 + 1) % 65536) =
      (((z.pc + (t.base 0xcd).noBytes) % 65536) >>> 8) % 256 := by
    rw [Bus.read_write, if_neg (by omega), Bus.read_write, if_pos (by omega)]
    omega
  have hb2 : ((b.Write ((z.sp + 65535) % 65536)
          ((((z.pc + (t.base 0xcd).noBytes) % 65536) >>> 8) % 256)).Write
        (((z.sp + 65535) % 65536 + 65535) % 65536)
        (((z.pc + (t.base 0xcd).noBytes) % 65536) % 256)).Read
        (((b.Write ((z.sp + 65535) % 65536)
          ((((z.pc + (t.base 0xcd).noBytes) % 65536) >>> 8) % 256)).Write
        (((z.sp + 65535) % 65536 + 65535) % 65536)
        (((z.pc + (t.base 0xcd).noBytes) % 65536) % 256)).Read (z.pc+1)
              ||| (((b.Write ((z.sp + 65535) % 65536)
          ((((z.pc + (t.base 0xcd).noBytes) % 65536) >>> 8) % 256)).Write
        (((z.sp + 65535) % 65536 + 65535) % 65536)
        (((z.pc + (t.base 0xcd).noBytes) % 65536) % 256)).Read (z.pc+2) <<< 8)) = 0xc9 := by
    rw [hr1, hr2, Bus.read_write, if_neg (by omega), Bus.read_write, if_neg (by omega)]
    exact hret
  rw [e1]
  dsimp only
  have e2 := Step_eq_early t _ _ _ _ _ (stepSwitch_ret t
    { z with
        sp := ((z.sp + 65535) % 65536 + 65535) % 65536,
        pc := ((b.Write ((z.sp + 65535) % 65536)
                  ((((z.pc + (t.base 0xcd).noBytes) % 65536) >>> 8) % 256)).Write
                (((z.sp + 65535) % 65536 + 65535) % 65536)
                (((z.pc + (t.base 0xcd).noBytes) % 65536) % 256)).Read (z.pc+1)
              ||| (((b.Write ((z.sp + 65535) % 65536)
                  ((((z.pc + (t.base 0xcd).noBytes) % 65536) >>> 8) % 256)).Write
                (((z.sp + 65535) % 65536 + 65535) % 65536)
                (((z.pc + (t.base 0xcd).noBytes) % 65536) % 256)).Read (z.pc+2) <<< 8),
        totalCycles := (z.totalCycles + (t.base 0xcd).noCycles) % 18446744073709551616 }
    ((b.Write ((z.sp + 65535) % 65536)
        ((((z.pc + (t.base 0xcd).noBytes) % 65536) >>> 8) % 256)).Write
      (((z.sp + 65535) % 65536 + 65535) % 65536)
      (((z.pc + (t.base 0xcd).noBytes) % 65536) % 256)) hb2)
  rw [e2]
  dsimp only
  rw [hr1, hr2, hrd_lo2, hrd_hi2]
  have hsplit : ((z.pc + (t.base 0xcd).noBytes) % 65536) >>> 8 =
      ((z.pc + (t.base 0xcd).noBytes) % 65536) / 256 := by
    rw [Nat.shiftRight_eq_div_pow]
  refine ⟨rfl, hrd_sp1, hrd_sp2, ?_, by omega, rfl, rfl⟩
  rw [byteRecomb ((((z.pc + (t.base 0xcd).noBytes) % 65536) >>> 8) % 256)
    (((z.pc + (t.base 0xcd).noBytes) % 65536) % 256) (by omega), hsplit]
  omega



/-- C7 amended: every conditional opcode (jr z 0x28, jp nz 0xc2, ret z 0xc8,
jp z 0xca, jp nc 0xd2, jp c 0xda, jp po 0xe2, jp pe 0xea, jp p 0xf2,
jp m 0xfa) takes the branch iff its flag condition holds at entry, and the
not-taken path advances PC by the descriptor byte length; however the
not-taken cycle cost is not a distinct count: the absolute jumps add exactly
the same descriptor cycle count on both paths, jr z adds 7 extra cycles
before the generic step on the not-taken path, and ret z uses a hardcoded
11-cycle taken cost. -/
theorem conditional_branch_semantics (t : Tables) (z : Z80) (b : Bus) :
    (b.Read z.pc = 0x28 →
      (z.af &&& zero = zero → Step t z b =
        ({ z with pc := (z.pc + 2 + sext8 (b.Read (z.pc+1))) % 65536,
                  totalCycles := (z.totalCycles + (t.base 0x28).noCycles) % 18446744073709551616 },
         b, none)) ∧
      (z.af &&& zero ≠ zero → Step t z b =
        ({ z with pc := (z.pc + (t.base 0x28).noBytes) % 65536,
                  totalCycles := ((z.totalCycles + 7) % 18446744073709551616
                    + (t.base 0x28).noCycles) % 18446744073709551616 }, b, none))) ∧
    (b.Read z.pc = 0xc2 →
      (z.af &&& zero = 0 → Step t z b =
        ({ z with pc := b.Read (z.pc+1) ||| (b.Read (z.pc+2) <<< 8),
                  totalCycles := (z.totalCycles + (t.base 0xc2).noCycles) % 18446744073709551616 },
         b, none)) ∧
      (z.af &&& zero ≠ 0 → Step t z b =
        ({ z with pc := (z.pc + (t.base 0xc2).noBytes) % 65536,
                  totalCycles := (z.totalCycles + (t.base 0xc2).noCycles) % 18446744073709551616 },
         b, none))) ∧
    (b.Read z.pc = 0xc8 →
      (z.af &&& zero = zero → Step t z b =
        ({ z with pc := (b.Read ((z.sp + 1) % 65536) <<< 8) ||| (b.Read z.sp &&& 255),
                  sp := ((z.sp + 1) % 65536 + 1) % 65536,
                  totalCycles := (z.totalCycles + 11) % 18446744073709551616 }, b, none)) ∧
      (z.af &&& zero ≠ zero → Step t z b =
        ({ z with pc := (z.pc + (t.base 0xc8).noBytes) % 65536,
                  totalCycles := (z.totalCycles + (t.base 0xc8).noCycles) % 18446744073709551616 },
         b, none))) ∧
    (b.Read z.pc = 0xca →
      (z.af &&& zero = zero → Step t z b =
        ({ z with pc := b.Read (z.pc+1) ||| (b.Read (z.pc+2) <<< 8),
                  totalCycles := (z.totalCycles + (t.base 0xca).noCycles) % 18446744073709551616 },
         b, none)) ∧
      (z.af &&& zero ≠ zero → Step t z b =
        ({ z with pc := (z.pc + (t.base 0xca).noBytes) % 65536,
                  totalCycles := (z.totalCycles + (t.base 0xca).noCycles) % 18446744073709551616 },
         b, none))) ∧
    (b.Read z.pc = 0xd2 →
      (z.af &&& carry = 0 → Step t z b =
        ({ z with pc := b.Read (z.pc+1) ||| (b.Read (z.pc+2) <<< 8),
                  totalCycles := (z.totalCycles + (t.base 0xd2).noCycles) % 18446744073709551616 },
         b, none)) ∧
      (z.af &&& carry ≠ 0 → Step t z b =
        ({ z with pc := (z.pc + (t.base 0xd2).noBytes) % 65536,
                  totalCycles := (z.totalCycles + (t.base 0xd2).noCycles) % 18446744073709551616 },
         b, none))) ∧
    (b.Read z.pc = 0xda →
      (z.af &&& carry = carry → Step t z b =
        ({ z with pc := b.Read (z.pc+1) ||| (b.Read (z.pc+2) <<< 8),
                  totalCycles := (z.totalCycles + (t.base 0xda).noCycles) % 18446744073709551616 },
         b, none)) ∧
      (z.af &&& carry ≠ carry → Step t z b =
        ({ z with pc := (z.pc + (t.base 0xda).noBytes) % 65536,
                  totalCycles := (z.totalCycles + (t.base 0xda).noCycles) % 18446744073709551616 },
         b, none))) ∧
    (b.Read z.pc = 0xe2 →
      (z.af &&& parity = 0 → Step t z b =
        ({ z with pc := b.Read (z.pc+1) ||| (b.Read (z.pc+2) <<< 8),
                  totalCycles := (z.totalCycles + (t.base 0xe2).noCycles) % 18446744073709551616 },
         b, none)) ∧
      (z.af &&& parity ≠ 0 → Step t z b =
        ({ z with pc := (z.pc + (t.base 0xe2).noBytes) % 65536,
                  totalCycles := (z.totalCycles + (t.base 0xe2).noCycles) % 18446744073709551616 },
         b, none))) ∧
    (b.Read z.pc = 0xea →
      (z.af &&& parity = parity → Step t z b =
        ({ z with pc := b.Read (z.pc+1) ||| (b.Read (z.pc+2) <<< 8),
                  totalCycles := (z.totalCycles + (t.base 0xea).noCycles) % 18446744073709551616 },
         b, none)) ∧
      (z.af &&& parity ≠ parity → Step t z b =
        ({ z with pc := (z.pc + (t.base 0xea).noBytes) % 65536,
                  totalCycles := (z.totalCycles + (t.base 0xea).noCycles) % 18446744073709551616 },
         b, none))) ∧
    (b.Read z.pc = 0xf2 →
      (z.af &&& sign = 0 → Step t z b =
        ({ z with pc := b.Read (z.pc+1) ||| (b.Read (z.pc+2) <<< 8),
                  totalCycles := (z.totalCycles + (t.base 0xf2).noCycles) % 18446744073709551616 },
         b, none)) ∧
      (z.af &&& sign ≠ 0 → Step t z b =
        ({ z with pc := (z.pc + (t.base 0xf2).noBytes) % 65536,
                  totalCycles := (z.totalCycles + (t.base 0xf2).noCycles) % 18446744073709551616 },
         b, none))) ∧
    (b.Read z.pc = 0xfa →
      (z.af &&& sign = sign → Step t z b =
        ({ z with pc := b.Read (z.pc+1) ||| (b.Read (z.pc+2) <<< 8),
                  totalCycles := (z.totalCycles + (t.base 0xfa).noCycles) % 18446744073709551616 },
         b, none)) ∧
      (z.af &&& sign ≠ sign → Step t z b =
        ({ z with pc := (z.pc + (t.base 0xfa).noBytes) % 65536,
                  totalCycles := (z.totalCycles + (t.base 0xfa).noCycles) % 18446744073709551616 },
         b, none))) := by
  refine ⟨fun hop => ⟨fun hc => ?_, fun hc => ?_⟩, fun hop => ⟨fun hc => ?_, fun hc => ?_⟩,
    fun hop => ⟨fun hc => ?_, fun hc => ?_⟩, fun hop => ⟨fun hc => ?_, fun hc => ?_⟩,
    fun hop => ⟨fun hc => ?_, fun hc => ?_⟩, fun hop => ⟨fun hc => ?_, fun hc => ?_⟩,
    fun hop => ⟨fun hc => ?_, fun hc => ?_⟩, fun hop => ⟨fun hc => ?_, fun hc => ?_⟩,
    fun hop => ⟨fun hc => ?_, fun hc => ?_⟩, fun hop => ⟨fun hc => ?_, fun hc => ?_⟩⟩
  all_goals simp [Step, stepSwitch, genericPostInstruction, hop, hc]


/-- Witness for C3 at a concrete machine: push bc then pop bc with
bc = 0x1234, sp = 0x100. -/
theorem push_pop_roundtrip_witness :
    (Step specTables (Step specTables zPush bPushPop).1 (Step specTables zPush bPushPop).2.1).1.bc
      = zPush.bc ∧
    (Step specTables (Step specTables zPush bPushPop).1 (Step specTables zPush bPushPop).2.1).1.sp
      = zPush.sp ∧
    (Step specTables zPush bPushPop).2.2 = none ∧
    (Step specTables (Step specTables zPush bPushPop).1 (Step specTables zPush bPushPop).2.1).2.2
      = none ∧
    (Step specTables zPush bPushPop).2.1.Read ((zPush.sp + 65535) % 65536)
      = (zPush.bc >>> 8) % 256 ∧
    (Step specTables zPush bPushPop).2.1.Read ((zPush.sp + 65534) % 65536) = zPush.bc % 256 :=
  push_pop_roundtrip specTables zPush bPushPop (by decide) (by decide) (by decide) (by decide)
    (by decide) (by decide)

/-- Witness for C4 at a concrete machine: call 0x0040 at address 0 with a ret
at 0x0040 and sp = 0x100. -/
theorem call_ret_roundtrip_witness :
    (Step specTables zCall bCallRet).1.pc =
      bCallRet.Read (zCall.pc+1) ||| (bCallRet.Read (zCall.pc+2) <<< 8) ∧
    (Step specTables zCall bCallRet).2.1.Read ((zCall.sp + 65535) % 65536) =
      (((zCall.pc + (specTables.base 0xcd).noBytes) % 65536) >>> 8) % 256 ∧
    (Step specTables zCall bCallRet).2.1.Read ((zCall.sp + 65534) % 65536) =
      ((zCall.pc + (specTables.base 0xcd).noBytes) % 65536) % 256 ∧
    (Step specTables (Step specTables zCall bCallRet).1 (Step specTables zCall bCallRet).2.1).1.pc
      = (zCall.pc + (specTables.base 0xcd).noBytes) % 65536 ∧
    (Step specTables (Step specTables zCall bCallRet).1 (Step specTables zCall bCallRet).2.1).1.sp
      = zCall.sp ∧
    (Step specTables zCall bCallRet).2.2 = none ∧
    (Step specTables (Step specTables zCall bCallRet).1 (Step specTables zCall bCallRet).2.1).2.2
      = none :=
  call_ret_roundtrip specTables zCall bCallRet (by decide) (by decide) (by decide) (by decide)
    (by decide) (by decide) (by decide) (by decide) (by decide)

/-- C7 counterexample: with the modelled 10-cycle jp nz descriptor, the taken
path (zero flag clear) and the not-taken path (zero flag set) add the same 10
cycles, so the not-taken cycle count is not distinct from the taken count;
the not-taken path does advance PC by the 3-byte length. -/
theorem jp_nz_cycle_counts_not_distinct :
    (Step specTables zJpnzTaken bJpnz).1.totalCycles = zJpnzTaken.totalCycles + 10 ∧
    (Step specTables zJpnzNot bJpnz).1.totalCycles = zJpnzNot.totalCycles + 10 ∧
    (Step specTables zJpnzNot bJpnz).1.pc = zJpnzNot.pc + 3 ∧
    (Step specTables zJpnzTaken bJpnz).1.pc = 0x0010 := by
  refine ⟨by decide, by decide, by decide, by decide⟩

/-- Witness for the amended C7 at a concrete machine: jp nz with the zero flag
clear takes the branch to its operand address. -/
theorem conditional_branch_semantics_witness :
    Step specTables zJpnzTaken bJpnz =
      ({ zJpnzTaken with
          pc := bJpnz.Read (zJpnzTaken.pc+1) ||| (bJpnz.Read (zJpnzTaken.pc+2) <<< 8),
          totalCycles := (zJpnzTaken.totalCycles + (specTables.base 0xc2).noCycles)
            % 18446744073709551616 },
       bJpnz, none) :=
  ((conditional_branch_semantics specTables zJpnzTaken bJpnz).2.1 (by decide)).1 (by decide)

/-- C8: executing ld a,(nn) (opcode 0x3a) at a state whose flag byte is 0xff
zeroes the entire flag byte (the handler stores Read(nn) <<< 8 into af without
preserving af's low byte), contradicting the rule that pure loads leave the
flag byte unchanged. -/
theorem ld_a_nn_clobbers_flags :
    (Step specTables zLdaNN bLdaNN).1.af = 0x5600 ∧ zLdaNN.af &&& 255 = 0xff := by
  refine ⟨by decide, by decide⟩

end toyz80
